import Mathlib

/-!
# Ticket Helper Bot: a shallow embedding of `src/index.mjs`

The bot keeps three process-wide maps (`ticketMetadata`, `cachedMessages`,
`queueMessages`) and registers four event handlers (`ChannelCreate`,
`MessageCreate`, `InteractionCreate`, `ChannelDelete`).  Each handler is embedded as a
function from the stores to the new stores together with the list of remote calls it issued.

Modelling conventions:

* a JavaScript `Map` is an insertion-ordered association list (`JsMap`);
* every awaited remote call is answered by a `World` record chosen per handler run: a fetch
  that rejects is `none`, and `World.ok` says whether a side-effecting call resolves;
* one handler run is one step: the interleaving of another handler at an `await` is not
  part of the model;
* `String.length` of JavaScript counts UTF-16 code units (`jsLength`);
* locale dependent formatting and the static style sheet are parameters (`Host`).
-/

namespace TicketHelper

/-! ## JavaScript `Map` -/

/-- Insertion-ordered association list standing for a JavaScript `Map` with string keys. -/
abbrev JsMap (V : Type) := List (String × V)

namespace JsMap

/-- The method `Map.prototype.get`: the value stored under `k`, or `none` for `undefined`. -/
def get {V : Type} : JsMap V → String → Option V
  | [], _ => none
  | (k', v) :: rest, k => if k' = k then some v else get rest k

/-- The method `Map.prototype.set`: an existing key keeps its position, a new key goes last. -/
def set {V : Type} : JsMap V → String → V → JsMap V
  | [], k, v => [(k, v)]
  | (k', v') :: rest, k, v => if k' = k then (k, v) :: rest else (k', v') :: set rest k v

/-- The method `Map.prototype.delete`: no entry under `k` remains. -/
def delete {V : Type} : JsMap V → String → JsMap V
  | [], _ => []
  | (k', v') :: rest, k => if k' = k then delete rest k else (k', v') :: delete rest k

end JsMap

/-! ## Strings -/

/-- JavaScript truthiness of a value that is a string, `null` or `undefined`. -/
def truthy : Option String → Bool
  | none => false
  | some s => decide (s ≠ "")

/-- The operator `a || b` where `a` is a string, `null` or `undefined` and `b` a string. -/
def orElse (a : Option String) (b : String) : String :=
  match a with
  | none => b
  | some s => if s = "" then b else s

/-- Number of UTF-16 code units of one character. -/
def utf16Units (c : Char) : Nat := if c.val.toNat < 65536 then 1 else 2

/-- The property `String.prototype.length`: the number of UTF-16 code units. -/
def jsLength (s : String) : Nat := (s.data.map utf16Units).sum

/-- White space and line terminators removed by `String.prototype.trim`. -/
def jsIsWhiteSpace (c : Char) : Bool :=
  let n := c.val.toNat
  n = 9 || n = 10 || n = 11 || n = 12 || n = 13 || n = 32 || n = 160 || n = 5760 ||
  (8192 ≤ n && n ≤ 8202) || n = 8232 || n = 8233 || n = 8239 || n = 8287 || n = 12288 ||
  n = 65279

/-- The method `String.prototype.trim`. -/
def jsTrim (s : String) : String :=
  String.mk ((s.data.dropWhile jsIsWhiteSpace).reverse.dropWhile jsIsWhiteSpace).reverse

/-- The method `String.prototype.startsWith`. -/
def startsWith (s pre : String) : Bool := pre.data.isPrefixOf s.data

/-- Fields of a character list separated by `sep` (never the empty list). -/
def splitChars (sep : Char) : List Char → List (List Char)
  | [] => [[]]
  | c :: cs =>
    if c = sep then [] :: splitChars sep cs
    else
      match splitChars sep cs with
      | [] => [[c]]
      | f :: fs => (c :: f) :: fs

/-- The method `String.prototype.split` with a one-character separator. -/
def jsSplit (s : String) (sep : Char) : List String := (splitChars sep s.data).map String.mk

/-- The expression `customId.split(':')[1]`.  Every use in the source follows a successful
`startsWith` test on a text that ends in a colon, so index 1 exists; the empty string stands
for `undefined` otherwise. -/
def idField (customId : String) : String := ((jsSplit customId ':')[1]?).getD ""

/-- The method `Array.prototype.join`. -/
def jsJoin (sep : String) : List String → String
  | [] => ""
  | [a] => a
  | a :: b :: rest => a ++ sep ++ jsJoin sep (b :: rest)

/-! ## Configuration and platform values -/

/-- Environment variables read at start-up.  All but `GITHUB_TOKEN` are required. -/
structure Config where
  QUEUE_CHANNEL_ID : String
  ONLINE_CATEGORY_ID : String
  INPERSON_CATEGORY_ID : String
  TA_ROLE_ID : String
  HEAD_TA_ROLE_ID : String
  INSTRUCTOR_ROLE_ID : String
  TRANSCRIPT_CHANNEL_ID : String
  GITHUB_TOKEN : Option String

/-- Locale dependent or purely cosmetic parts of the program, kept as parameters. -/
structure Host where
  /-- The function `formatTimestamp` (lines 97-106), a `toLocaleString` call. -/
  formatTimestamp : Nat → String
  /-- The expression `username[0].toUpperCase()`. -/
  initialOf : String → String
  /-- The static text of the `<style>` element of the transcript (lines 128-307). -/
  styleSheet : String

/-- Channel types: `ChannelType.GuildText` and every other one. -/
inductive ChannelType
  | GuildText
  | other
deriving DecidableEq, Repr

/-- A channel as delivered by the platform. -/
structure Channel where
  id : String
  name : String
  type : ChannelType
  parentId : Option String
  guildId : String
  createdAt : Nat
  /-- The collection `permissionOverwrites.cache`: overwrite id and overwrite type. -/
  permissionOverwrites : List (String × Nat)
deriving DecidableEq, Repr

/-- A guild member: `member.id`, `member.roles.cache`, `member.user.tag`, `member.user.bot`,
`member.displayName`. -/
structure Member where
  id : String
  roles : List String
  userTag : String
  userBot : Bool
  displayName : String
deriving DecidableEq, Repr

/-- The author of a message. -/
structure Author where
  username : String
  tag : String
  bot : Bool
deriving DecidableEq, Repr

/-- One attachment of a message. -/
structure Attachment where
  name : String
  url : String
deriving DecidableEq, Repr

/-- A message as delivered by `MessageCreate`; `embeds` is `msg.embeds.length`. -/
structure Message where
  id : String
  channel : Channel
  author : Author
  content : String
  embeds : Nat
  attachments : List Attachment
  createdAt : Nat
deriving DecidableEq, Repr

/-- The value stored in `ticketMetadata`. -/
structure Metadata where
  createdAt : Nat
  opener : Option String
  claimedBy : List String
deriving DecidableEq, Repr

/-- The three stores of lines 80-82. -/
structure State where
  ticketMetadata : JsMap Metadata
  cachedMessages : JsMap (List Message)
  queueMessages : JsMap String
deriving DecidableEq, Repr

/-- The stores at start-up. -/
def State.empty : State := ⟨[], [], []⟩

/-! ## Remote calls and their answers -/

/-- A button of a message: its `customId` and whether it is disabled. -/
structure Button where
  customId : String
  disabled : Bool
deriving DecidableEq, Repr

/-- The texts the handlers reply with. -/
inductive ReplyContent
  /-- Line 558: the submission is too short. -/
  | needMoreDetail
  /-- Line 603: the request was sent to staff. -/
  | requestSent
  /-- Line 617: only staff can claim. -/
  | onlyStaffCanClaim
  /-- Lines 681 and 723: only staff can close. -/
  | onlyStaffCanClose
  /-- Line 763: the generic failure message of the handler boundary. -/
  | errorOccurred
deriving DecidableEq, Repr

/-- The footer a handler gives to the embed of a queue post. -/
inductive Footer
  /-- Line 576. -/
  | ticketId (id : String)
  /-- Line 642. -/
  | claimedBy (displayName : String) (time : Nat)
  /-- Line 688. -/
  | closedWithoutJoining (displayName : String)
  /-- Line 730. -/
  | dismissedBy (displayName : String)
  /-- Line 795. -/
  | ticketClosed (time : Nat)
deriving DecidableEq, Repr

/-- The embed of a new help request (lines 567-577). -/
structure HelpEmbed where
  categoryName : String
  student : String
  guildId : String
  ticketId : String
  /-- The value of the field `Issue Summary`, as UTF-16 code units. -/
  issue : List Nat
  /-- The value of the field `What They Tried`, as UTF-16 code units. -/
  tried : List Nat
  footer : Footer
deriving DecidableEq, Repr

/-- The fields of the archive summary (lines 864-875). -/
structure Summary where
  channelName : String
  category : String
  ticketId : String
  openedBy : String
  studentId : String
  staffInvolved : String
  messages : String
deriving DecidableEq, Repr

/-- Side-effecting remote calls issued by the handlers. -/
inductive Call
  /-- Line 477: the welcome message with its button row. -/
  | sendWelcome (channelId : String) (components : List Button)
  /-- Line 491. -/
  | pin (channelId : String)
  /-- Line 547. -/
  | showModal (customId : String)
  /-- The method `interaction.reply`. -/
  | reply (content : ReplyContent) (ephemeral : Bool)
  /-- Line 593: the post in the staff queue. -/
  | queueSend (queueChannelId : String) (roleMentions : List String) (embed : HelpEmbed)
      (components : List Button)
  /-- Line 631. -/
  | permissionsEdit (channelId memberId : String)
  /-- The method `interaction.update` on the message the button belongs to. -/
  | update (messageId : String) (footer : Footer) (components : List Button)
  /-- Line 667. -/
  | sendJoined (channelId memberId : String)
  /-- Line 815. -/
  | queueEdit (messageId : String) (footer : Footer) (components : List Button)
  /-- Line 386: the request to the publishing service. -/
  | gistPost (filename content : String)
  /-- Line 895: the post in the transcript channel. -/
  | archiveSend (channelId : String) (summary : Summary) (filename html : String)
      (viewUrl : Option String)
  /-- Line 927: the direct message to the student. -/
  | directMessage (userId channelName filename html : String) (viewUrl : Option String)
deriving DecidableEq, Repr

/-- What the publishing service answers to the request of line 386. -/
inductive GistResponse
  /-- The request, or reading its body, raises. -/
  | throws
  /-- The field `response.ok` is false. -/
  | notOk
  /-- A success response; `files` lists each key of `gist.files` with its `raw_url`. -/
  | ok (files : List (String × Option String))
deriving DecidableEq, Repr

/-- Answers of the platform during one handler run. -/
structure World where
  /-- The clock: `new Date()` and `Date.now()`. -/
  now : Nat
  /-- The call `client.channels.fetch(id)`; `none` when it rejects. -/
  fetchChannel : String → Option Channel
  /-- The call `channel.guild.members.fetch(id)`; `none` when it rejects. -/
  fetchMember : String → Option Member
  /-- The call `queueChannel.messages.fetch(id)`: `embeds.length` of the post. -/
  fetchMessage : String → Option Nat
  /-- The call `client.users.fetch(id)`: the id of the user; `none` when it rejects. -/
  fetchUser : String → Option String
  /-- The id the platform gives to a message sent by `queueChannel.send`. -/
  newMessageId : String
  /-- The answer of the publishing service. -/
  gist : GistResponse
  /-- Whether a side-effecting call resolves (`true`) or rejects (`false`). -/
  ok : Call → Bool

/-- A call together with its outcome. -/
structure Effect where
  call : Call
  ok : Bool
deriving DecidableEq, Repr

/-- Issue a call in a world. -/
def perform (w : World) (c : Call) : Effect := ⟨c, w.ok c⟩

/-- What a handler run leaves behind: the stores and the calls it issued, in order. -/
structure Result where
  state : State
  effects : List Effect
deriving DecidableEq, Repr

/-! ## Pure helpers of the source -/

/-- The function `isTicketChannel` (lines 84-89); `none` is a missing channel. -/
def isTicketChannel (cfg : Config) (channel : Option Channel) : Bool :=
  match channel with
  | none => false
  | some ch =>
    decide (ch.type = ChannelType.GuildText) &&
    (decide (ch.parentId = some cfg.ONLINE_CATEGORY_ID) ||
      decide (ch.parentId = some cfg.INPERSON_CATEGORY_ID))

/-- The function `getCategoryName` (lines 91-95). -/
def getCategoryName (cfg : Config) (channel : Channel) : String :=
  if channel.parentId = some cfg.ONLINE_CATEGORY_ID then "Online"
  else if channel.parentId = some cfg.INPERSON_CATEGORY_ID then "In-Person"
  else "Unknown"

/-- The replacement table of `escapeHtml` (lines 109-115). -/
def escapeChar (c : Char) : List Char :=
  if c = '&' then "&amp;".data
  else if c = '<' then "&lt;".data
  else if c = '>' then "&gt;".data
  else if c = '"' then "&quot;".data
  else if c = '\x27' then "&#039;".data
  else [c]

/-- The function `escapeHtml` (lines 108-117). -/
def escapeHtml (text : String) : String := String.mk (text.data.flatMap escapeChar)

/-- The test of lines 614, 678 and 720. -/
def hasStaffRole (cfg : Config) (member : Member) : Bool :=
  member.roles.contains cfg.TA_ROLE_ID || member.roles.contains cfg.HEAD_TA_ROLE_ID ||
    member.roles.contains cfg.INSTRUCTOR_ROLE_ID

/-! ## The transcript document -/

/-- One attachment block of a message (lines 358-362). -/
def attachmentHTML (att : Attachment) : String :=
  "\n                    <div class=\"attachment\">" ++
  "\n                        <div class=\"attachment-label\">Attachment</div>" ++
  "\n                        <a href=\"" ++ att.url ++
  "\" class=\"attachment-link\" target=\"_blank\">" ++ escapeHtml att.name ++ "</a>" ++
  "\n                    </div>"

/-- The text one message adds to `messagesHTML` (lines 344-364). -/
def messageHTML (host : Host) (msg : Message) : String :=
  let authorInitial :=
    if msg.author.username ≠ "" then host.initialOf msg.author.username else "?"
  let isBot := msg.author.bot
  "\n            <div class=\"message\">" ++
  "\n                <div class=\"avatar " ++ (if isBot then "bot" else "") ++ "\">" ++
  authorInitial ++ "</div>" ++
  "\n                <div class=\"message-content-wrapper\">" ++
  "\n                    <div class=\"message-header\">" ++
  "\n                        <span class=\"author\">" ++
  escapeHtml (orElse (some msg.author.username) msg.author.tag) ++ "</span>" ++
  "\n                        " ++ (if isBot then "<span class=\"bot-tag\">BOT</span>" else "") ++
  "\n                        <span class=\"timestamp\">" ++
  host.formatTimestamp msg.createdAt ++ "</span>" ++
  "\n                    </div>" ++
  "\n                    " ++
  (if msg.content ≠ "" then
    "<div class=\"message-text\">" ++ escapeHtml msg.content ++ "</div>" else "") ++
  "\n                    " ++
  (if msg.embeds > 0 then
    "<div class=\"embed\">[" ++ toString msg.embeds ++ " embed" ++
      (if msg.embeds > 1 then "s" else "") ++ "]</div>" else "") ++
  "\n                    " ++
  (if msg.attachments.length > 0 then
    jsJoin "" (msg.attachments.map attachmentHTML) else "") ++
  "\n                </div>" ++
  "\n            </div>"

/-- The constant `html` of lines 122-340, for a session whose metadata is defined. -/
def headerHTML (host : Host) (cfg : Config) (now : Nat) (channel : Channel)
    (metadata : Metadata) : String :=
  let categoryName := getCategoryName cfg channel
  "<!DOCTYPE html>\n<html lang=\"en\">\n<head>\n    <meta charset=\"UTF-8\">" ++
  "\n    <meta name=\"viewport\" content=\"width=device-width, initial-scale=1.0\">" ++
  "\n    <title>Ticket Transcript - " ++ escapeHtml channel.name ++ "</title>" ++
  "\n    <style>" ++ host.styleSheet ++ "</style>" ++
  "\n</head>\n<body>\n    <div class=\"container\">\n        <div class=\"header\">" ++
  "\n            <h1>#" ++ escapeHtml channel.name ++ "</h1>" ++
  "\n            <div class=\"metadata\">" ++
  "\n                <div class=\"metadata-item\">" ++
  "\n                    <div class=\"metadata-label\">Category</div>" ++
  "\n                    <div class=\"metadata-value\">" ++ categoryName ++ "</div>" ++
  "\n                </div>" ++
  "\n                <div class=\"metadata-item\">" ++
  "\n                    <div class=\"metadata-label\">Ticket ID</div>" ++
  "\n                    <div class=\"metadata-value\">" ++ channel.id ++ "</div>" ++
  "\n                </div>" ++
  "\n                <div class=\"metadata-item\">" ++
  "\n                    <div class=\"metadata-label\">Opened By</div>" ++
  "\n                    <div class=\"metadata-value\">" ++
  escapeHtml (orElse metadata.opener "Unknown") ++ "</div>" ++
  "\n                </div>" ++
  "\n                <div class=\"metadata-item\">" ++
  "\n                    <div class=\"metadata-label\">Staff Involved</div>" ++
  "\n                    <div class=\"metadata-value\">" ++
  (if metadata.claimedBy.length > 0 then escapeHtml (jsJoin ", " metadata.claimedBy)
    else "None") ++ "</div>" ++
  "\n                </div>" ++
  "\n                <div class=\"metadata-item\">" ++
  "\n                    <div class=\"metadata-label\">Created</div>" ++
  "\n                    <div class=\"metadata-value\">" ++
  host.formatTimestamp channel.createdAt ++ "</div>" ++
  "\n                </div>" ++
  "\n                <div class=\"metadata-item\">" ++
  "\n                    <div class=\"metadata-label\">Closed</div>" ++
  "\n                    <div class=\"metadata-value\">" ++ host.formatTimestamp now ++ "</div>" ++
  "\n                </div>" ++
  "\n            </div>" ++
  "\n        </div>" ++
  "\n        " ++
  "\n        <div class=\"messages\">"

/-- The closing text of lines 367-375. -/
def footerHTML (channel : Channel) (messages : List Message) : String :=
  "\n        </div>" ++
  "\n        " ++
  "\n        <div class=\"footer\">" ++
  "\n            Transcript generated for " ++ escapeHtml channel.name ++ " • " ++
  toString messages.length ++ " messages" ++
  "\n        </div>" ++
  "\n    </div>" ++
  "\n</body>" ++
  "\n</html>"

/-- The function `generateHTMLTranscript` (lines 119-378).  The argument `metadata` is `none`
for the empty object of line 778, on which `metadata.claimedBy.length` raises; the
result `none` is that exception. -/
def generateHTMLTranscript (host : Host) (cfg : Config) (now : Nat) (channel : Channel)
    (messages : List Message) (metadata : Option Metadata) : Option String :=
  match metadata with
  | none => none
  | some md =>
    let html := headerHTML host cfg now channel md
    let messagesHTML := messages.foldl (fun acc msg => acc ++ messageHTML host msg) ""
    some (html ++ messagesHTML ++ footerHTML channel messages)

/-- The function `uploadToGist` (lines 380-429): the link, or `none` for `null`, and the
request it made. -/
def uploadToGist (cfg : Config) (w : World) (htmlContent filename : String) :
    Option String × List Effect :=
  if !truthy cfg.GITHUB_TOKEN then (none, [])
  else
    let request := perform w (Call.gistPost filename htmlContent)
    if !request.ok then (none, [request])
    else
      match w.gist with
      | GistResponse.throws => (none, [request])
      | GistResponse.notOk => (none, [request])
      | GistResponse.ok [] => (none, [request])
      | GistResponse.ok ((fileKey, raw_url) :: _) =>
        if fileKey = "" || !truthy raw_url then (none, [request])
        else (some ("https://htmlpreview.github.io/?" ++ orElse raw_url ""), [request])

/-! ## `ChannelCreate` and `MessageCreate` -/

/-- The loops of lines 451-467 and 832-844: the first overwrite of type 1 whose member can
be fetched and is not a bot. -/
def firstHumanMember (w : World) : List (String × Nat) → Option Member
  | [] => none
  | (id, type) :: rest =>
    if type = 1 then
      match w.fetchMember id with
      | some member => if !member.userBot then some member else firstHumanMember w rest
      | none => firstHumanMember w rest
    else firstHumanMember w rest

/-- The `ChannelCreate` handler (lines 432-497). -/
def onChannelCreate (cfg : Config) (w : World) (s : State) (channel : Channel) : Result :=
  if !isTicketChannel cfg (some channel) then ⟨s, []⟩
  else
    let s1 : State :=
      { s with
        ticketMetadata :=
          JsMap.set s.ticketMetadata channel.id
            { createdAt := w.now, opener := none, claimedBy := [] },
        cachedMessages := JsMap.set s.cachedMessages channel.id [] }
    let s2 : State :=
      match firstHumanMember w channel.permissionOverwrites with
      | none => s1
      | some member =>
        match JsMap.get s1.ticketMetadata channel.id with
        | none => s1
        | some metadata =>
          { s1 with
            ticketMetadata :=
              JsMap.set s1.ticketMetadata channel.id
                { metadata with opener := some member.userTag } }
    let welcome :=
      perform w (Call.sendWelcome channel.id [⟨"reqhelp:" ++ channel.id, false⟩])
    if !welcome.ok then ⟨s2, [welcome]⟩
    else ⟨s2, [welcome, perform w (Call.pin channel.id)]⟩

/-- The `MessageCreate` handler (lines 500-511). -/
def onMessageCreate (cfg : Config) (s : State) (message : Message) : Result :=
  if !isTicketChannel cfg (some message.channel) then ⟨s, []⟩
  else
    match JsMap.get s.cachedMessages message.channel.id with
    | none => ⟨s, []⟩
    | some cached =>
      ⟨{ s with
          cachedMessages := JsMap.set s.cachedMessages message.channel.id (cached ++ [message]) },
        []⟩

/-! ## `InteractionCreate` -/

/-- The kinds of interaction the handler tells apart. -/
inductive InteractionKind
  /-- The test `interaction.isButton()` holds. -/
  | button
  /-- The test `interaction.isModalSubmit()` holds. -/
  | modalSubmit
  /-- Any other interaction. -/
  | other
deriving DecidableEq, Repr

/-- An interaction as delivered by the platform. -/
structure Interaction where
  kind : InteractionKind
  customId : String
  /-- The acting guild member, `interaction.member`. -/
  member : Member
  /-- The mention `interaction.user` is rendered as. -/
  user : String
  /-- The value of the text input `issue`, when present. -/
  issue : Option String
  /-- The value of the text input `tried`, when present. -/
  tried : Option String
  /-- The id of `interaction.message`, the post the button belongs to. -/
  messageId : String
deriving DecidableEq, Repr

/-- How control leaves a block of the handler. -/
inductive Flow
  /-- Control reaches the statement after the block. -/
  | next
  /-- A `return` was executed. -/
  | returned
  /-- An exception is travelling to the `catch` of the handler. -/
  | threw
deriving DecidableEq, Repr

/-- The progress of one run of the `InteractionCreate` handler. -/
structure Run where
  state : State
  effects : List Effect
  /-- The flag `interaction.replied`. -/
  replied : Bool
  flow : Flow
deriving DecidableEq, Repr

/-- Continue with `f` when control reaches the next statement. -/
def Run.andThen (r : Run) (f : Run → Run) : Run :=
  match r.flow with
  | Flow.next => f r
  | _ => r

/-- The UTF-16 code units of one character: the character itself in the basic plane, a high
and a low surrogate otherwise. -/
def utf16CodeUnits (c : Char) : List Nat :=
  if c.val.toNat < 65536 then [c.val.toNat]
  else [55296 + (c.val.toNat - 65536) / 1024, 56320 + (c.val.toNat - 65536) % 1024]

/-- The UTF-16 code units of a string, the elements JavaScript indexes. -/
def jsCodeUnits (s : String) : List Nat := s.data.flatMap utf16CodeUnits

/-- The method `String.prototype.slice(0, n)`: the first `n` code units, which may end in a
lone high surrogate. -/
def jsSliceTo (n : Nat) (s : String) : List Nat := (jsCodeUnits s).take n

/-- The expression `getTextInputValue(name)?.trim() ?? ''` of lines 553-554. -/
def trimmedInput (value : Option String) : String :=
  match value with
  | none => ""
  | some v => jsTrim v

/-- Lines 517-548: the "Request Help" button shows the form. -/
def reqhelpBranch (w : World) (i : Interaction) (r : Run) : Run :=
  if i.kind = InteractionKind.button && startsWith i.customId "reqhelp:" then
    let channelId := idField i.customId
    let shown := perform w (Call.showModal ("reqform:" ++ channelId))
    { r with effects := r.effects ++ [shown], replied := shown.ok, flow := Flow.returned }
  else r

/-- Lines 551-608: a submitted form is validated and posted to the staff queue. -/
def reqformBranch (cfg : Config) (w : World) (i : Interaction) (r : Run) : Run :=
  if i.kind = InteractionKind.modalSubmit && startsWith i.customId "reqform:" then
    let channelId := idField i.customId
    let issue := trimmedInput i.issue
    let tried := trimmedInput i.tried
    if jsLength issue < 20 || jsLength tried < 30 then
      { r with
        effects := r.effects ++ [perform w (Call.reply ReplyContent.needMoreDetail true)],
        flow := Flow.returned }
    else
      match w.fetchChannel channelId with
      | none => { r with flow := Flow.threw }
      | some ticketChannel =>
        match w.fetchChannel cfg.QUEUE_CHANNEL_ID with
        | none => { r with flow := Flow.threw }
        | some queueChannel =>
          let categoryName := getCategoryName cfg ticketChannel
          let embed : HelpEmbed :=
            { categoryName := categoryName, student := i.user,
              guildId := ticketChannel.guildId, ticketId := ticketChannel.id,
              issue := jsSliceTo 1024 issue,
              tried := jsSliceTo 1024 tried,
              footer := Footer.ticketId ticketChannel.id }
          let post :=
            perform w
              (Call.queueSend queueChannel.id
                [cfg.TA_ROLE_ID, cfg.HEAD_TA_ROLE_ID, cfg.INSTRUCTOR_ROLE_ID] embed
                [⟨"claim:" ++ channelId, false⟩, ⟨"qclose:" ++ channelId, false⟩])
          if !post.ok then { r with effects := r.effects ++ [post], flow := Flow.threw }
          else
            let s1 : State :=
              { r.state with
                queueMessages := JsMap.set r.state.queueMessages channelId w.newMessageId }
            let confirm := perform w (Call.reply ReplyContent.requestSent true)
            if !confirm.ok then
              { r with state := s1, effects := r.effects ++ [post, confirm], flow := Flow.threw }
            else
              { r with state := s1, effects := r.effects ++ [post, confirm], replied := true }
  else r

/-- Lines 625-629 of the claim block: the tag of the claiming member is pushed on the
`claimedBy` list of the session, unless the session is unknown or the tag is already there. -/
def recordClaimant (s : State) (channelId tag : String) : State :=
  match JsMap.get s.ticketMetadata channelId with
  | none => s
  | some metadata =>
    if !metadata.claimedBy.contains tag then
      { s with
        ticketMetadata :=
          JsMap.set s.ticketMetadata channelId
            { metadata with claimedBy := metadata.claimedBy ++ [tag] } }
    else s

/-- Lines 611-672: a staff member claims a request and joins the ticket. -/
def claimBranch (cfg : Config) (w : World) (i : Interaction) (r : Run) : Run :=
  if i.kind = InteractionKind.button && startsWith i.customId "claim:" then
    let member := i.member
    if !hasStaffRole cfg member then
      { r with
        effects := r.effects ++ [perform w (Call.reply ReplyContent.onlyStaffCanClaim true)],
        flow := Flow.returned }
    else
      let channelId := idField i.customId
      match w.fetchChannel channelId with
      | none => { r with flow := Flow.threw }
      | some ticketChannel =>
        let s1 := recordClaimant r.state channelId member.userTag
        let edit := perform w (Call.permissionsEdit ticketChannel.id member.id)
        if !edit.ok then
          { r with state := s1, effects := r.effects ++ [edit], flow := Flow.threw }
        else
          let update :=
            perform w
              (Call.update i.messageId (Footer.claimedBy member.displayName w.now)
                [⟨"claimed_disabled", true⟩, ⟨"qclose_claimed:" ++ channelId, false⟩])
          if !update.ok then
            { r with state := s1, effects := r.effects ++ [edit, update], flow := Flow.threw }
          else
            let joined := perform w (Call.sendJoined ticketChannel.id member.id)
            if !joined.ok then
              { r with
                state := s1, effects := r.effects ++ [edit, update, joined], replied := true,
                flow := Flow.threw }
            else
              { r with
                state := s1, effects := r.effects ++ [edit, update, joined], replied := true }
  else r

/-- Lines 675-714: a staff member closes a request without joining. -/
def qcloseBranch (cfg : Config) (w : World) (i : Interaction) (r : Run) : Run :=
  if i.kind = InteractionKind.button && startsWith i.customId "qclose:" then
    let member := i.member
    if !hasStaffRole cfg member then
      { r with
        effects := r.effects ++ [perform w (Call.reply ReplyContent.onlyStaffCanClose true)],
        flow := Flow.returned }
    else
      let update :=
        perform w
          (Call.update i.messageId (Footer.closedWithoutJoining member.displayName)
            [⟨"claim_disabled", true⟩, ⟨"close_disabled", true⟩])
      if !update.ok then { r with effects := r.effects ++ [update], flow := Flow.threw }
      else { r with effects := r.effects ++ [update], replied := true }
  else r

/-- Lines 717-756: a staff member dismisses a claimed request. -/
def qcloseClaimedBranch (cfg : Config) (w : World) (i : Interaction) (r : Run) : Run :=
  if i.kind = InteractionKind.button && startsWith i.customId "qclose_claimed:" then
    let member := i.member
    if !hasStaffRole cfg member then
      { r with
        effects := r.effects ++ [perform w (Call.reply ReplyContent.onlyStaffCanClose true)],
        flow := Flow.returned }
    else
      let update :=
        perform w
          (Call.update i.messageId (Footer.dismissedBy member.displayName)
            [⟨"claim_disabled", true⟩, ⟨"close_disabled", true⟩])
      if !update.ok then { r with effects := r.effects ++ [update], flow := Flow.threw }
      else { r with effects := r.effects ++ [update], replied := true }
  else r

/-- The `catch` block of lines 758-767. -/
def catchBlock (w : World) (r : Run) : Result :=
  match r.flow with
  | Flow.threw =>
    if !r.replied then
      ⟨r.state, r.effects ++ [perform w (Call.reply ReplyContent.errorOccurred true)]⟩
    else ⟨r.state, r.effects⟩
  | _ => ⟨r.state, r.effects⟩

/-- The five blocks of the `try` of lines 515-756, in source order. -/
def interactionBody (cfg : Config) (w : World) (s : State) (i : Interaction) : Run :=
  (((((Run.mk s [] false Flow.next).andThen (reqhelpBranch w i)).andThen
    (reqformBranch cfg w i)).andThen (claimBranch cfg w i)).andThen
    (qcloseBranch cfg w i)).andThen (qcloseClaimedBranch cfg w i)

/-- The `InteractionCreate` handler (lines 514-768). -/
def onInteractionCreate (cfg : Config) (w : World) (s : State) (i : Interaction) : Result :=
  catchBlock w (interactionBody cfg w s i)

/-! ## `ChannelDelete` -/

/-- Lines 786-827: the queue post of a closing ticket is updated and forgotten.  A failing
fetch or edit leaves the block through its own `catch`, before line 823. -/
def closeQueuePost (cfg : Config) (w : World) (s : State) (channel : Channel) :
    State × List Effect :=
  match JsMap.get s.queueMessages channel.id with
  | none => (s, [])
  | some queueMessageId =>
    if queueMessageId = "" then (s, [])
    else
      match w.fetchChannel cfg.QUEUE_CHANNEL_ID with
      | none => (s, [])
      | some _ =>
        match w.fetchMessage queueMessageId with
        | none => (s, [])
        | some embeds =>
          let forgotten : State :=
            { s with queueMessages := JsMap.delete s.queueMessages channel.id }
          if embeds > 0 then
            let edit :=
              perform w
                (Call.queueEdit queueMessageId (Footer.ticketClosed w.now)
                  [⟨"claim_disabled", true⟩, ⟨"close_disabled", true⟩])
            if !edit.ok then (s, [edit]) else (forgotten, [edit])
          else (forgotten, [])

/-- The statement at which a run of the `ChannelDelete` handler ends. -/
inductive DeleteExit
  /-- Line 773: not a ticket channel. -/
  | notTicket
  /-- Line 782: no cached messages. -/
  | noMessages
  /-- Line 940: an exception reached the `catch` of the handler. -/
  | threw
  /-- Line 938: the run reached its end, after the clean-up of lines 935-936. -/
  | completed
deriving DecidableEq, Repr

/-- A run of the `ChannelDelete` handler: the stores, the calls issued, the document of
line 846 when it was generated, and where the run ended. -/
structure DeleteRun where
  state : State
  effects : List Effect
  htmlContent : Option String
  exit : DeleteExit
deriving DecidableEq, Repr

/-- Lines 897-932: the direct message to the student, inside its own `try`. -/
def sendTranscriptDM (w : World) (studentUserId : Option String)
    (channelName filename htmlContent : String) (gistUrl : Option String) : List Effect :=
  if truthy studentUserId then
    match w.fetchUser (orElse studentUserId "") with
    | none => []
    | some userId =>
      [perform w (Call.directMessage userId channelName filename htmlContent
        (if truthy gistUrl then gistUrl else none))]
  else []

/-- The check `EmbedBuilder.addFields` makes on the value of a field: between 1 and 1024
code units. -/
def validFieldValue (value : String) : Bool :=
  decide (1 ≤ jsLength value) && decide (jsLength value ≤ 1024)

/-- The check `EmbedBuilder.setTitle` makes on a title: between 1 and 256 code units. -/
def validTitle (title : String) : Bool :=
  decide (1 ≤ jsLength title) && decide (jsLength title ≤ 256)

/-- The builder calls of lines 864-875 return: the title and the six field values pass the
checks of `setTitle` and `addFields`.  Otherwise the builder raises. -/
def summaryEmbedValid (summary : Summary) : Bool :=
  validTitle ("📄 Ticket Transcript — " ++ summary.channelName) &&
    validFieldValue summary.category && validFieldValue summary.ticketId &&
    validFieldValue summary.openedBy && validFieldValue summary.studentId &&
    validFieldValue summary.staffInvolved && validFieldValue summary.messages

/-- The body of the `ChannelDelete` handler (lines 771-942). -/
def channelDeleteRun (host : Host) (cfg : Config) (w : World) (s : State)
    (channel : Channel) : DeleteRun :=
  if !isTicketChannel cfg (some channel) then ⟨s, [], none, DeleteExit.notTicket⟩
  else
    let metadata := JsMap.get s.ticketMetadata channel.id
    match JsMap.get s.cachedMessages channel.id with
    | none => ⟨s, [], none, DeleteExit.noMessages⟩
    | some messages =>
      if messages.length = 0 then ⟨s, [], none, DeleteExit.noMessages⟩
      else
        let queue := closeQueuePost cfg w s channel
        let s1 := queue.1
        let studentUserId := (firstHumanMember w channel.permissionOverwrites).map Member.id
        match generateHTMLTranscript host cfg w.now channel messages metadata, metadata with
        | some htmlContent, some md =>
          let filename := "transcript-" ++ channel.name ++ "-" ++ toString w.now ++ ".html"
          let gist := uploadToGist cfg w htmlContent filename
          let gistUrl := gist.1
          match w.fetchChannel cfg.TRANSCRIPT_CHANNEL_ID with
          | none => ⟨s1, queue.2 ++ gist.2, some htmlContent, DeleteExit.threw⟩
          | some transcriptChannel =>
            let summary : Summary :=
              { channelName := channel.name,
                category := getCategoryName cfg channel,
                ticketId := channel.id,
                openedBy := orElse md.opener "Unknown",
                studentId := orElse studentUserId "Unknown",
                staffInvolved :=
                  if md.claimedBy.length > 0 then jsJoin ", " md.claimedBy
                  else "None (student worked independently)",
                messages := toString messages.length ++ " messages" }
            if !summaryEmbedValid summary then
              ⟨s1, queue.2 ++ gist.2, some htmlContent, DeleteExit.threw⟩
            else
              let archive :=
                perform w
                  (Call.archiveSend transcriptChannel.id summary filename htmlContent
                    (if truthy gistUrl then gistUrl else none))
              if !archive.ok then
                ⟨s1, queue.2 ++ gist.2 ++ [archive], some htmlContent, DeleteExit.threw⟩
              else
                let dm :=
                  sendTranscriptDM w studentUserId channel.name filename htmlContent gistUrl
                let s2 : State :=
                  { s1 with
                    cachedMessages := JsMap.delete s1.cachedMessages channel.id,
                    ticketMetadata := JsMap.delete s1.ticketMetadata channel.id }
                ⟨s2, queue.2 ++ gist.2 ++ [archive] ++ dm, some htmlContent,
                  DeleteExit.completed⟩
        | _, _ => ⟨s1, queue.2, none, DeleteExit.threw⟩

/-- The `ChannelDelete` handler (lines 771-942). -/
def onChannelDelete (host : Host) (cfg : Config) (w : World) (s : State)
    (channel : Channel) : Result :=
  let r := channelDeleteRun host cfg w s channel
  ⟨r.state, r.effects⟩

/-! ## Events -/

/-- The platform events the bot listens to, each with the answers of the platform during
its handling. -/
inductive Event
  | channelCreate (w : World) (channel : Channel)
  | messageCreate (message : Message)
  | interactionCreate (w : World) (interaction : Interaction)
  | channelDelete (w : World) (channel : Channel)

/-- Handle one event. -/
def step (host : Host) (cfg : Config) (s : State) : Event → Result
  | Event.channelCreate w channel => onChannelCreate cfg w s channel
  | Event.messageCreate message => onMessageCreate cfg s message
  | Event.interactionCreate w interaction => onInteractionCreate cfg w s interaction
  | Event.channelDelete w channel => onChannelDelete host cfg w s channel

/-- Handle a sequence of events in delivery order, collecting the calls issued. -/
def run (host : Host) (cfg : Config) : State → List Event → Result
  | s, [] => ⟨s, []⟩
  | s, e :: es =>
    let r := step host cfg s e
    let rest := run host cfg r.state es
    ⟨rest.state, r.effects ++ rest.effects⟩

/-! ## Vocabulary of the properties -/

/-- The messages an event sequence delivers for channel id `c`, in delivery order. -/
def deliveredTo (c : String) : List Event → List Message
  | [] => []
  | Event.messageCreate m :: es =>
    if m.channel.id = c then m :: deliveredTo c es else deliveredTo c es
  | _ :: es => deliveredTo c es

/-- Events that can occur while the session of the ticket channel with id `c` stays open:
messages of that channel (which is a ticket channel), any interaction, and events of other
channels. -/
def duringSession (cfg : Config) (c : String) : Event → Bool
  | Event.messageCreate m => !decide (m.channel.id = c) || isTicketChannel cfg (some m.channel)
  | Event.channelCreate _ channel => !decide (channel.id = c)
  | Event.channelDelete _ channel => !decide (channel.id = c)
  | Event.interactionCreate _ _ => true

/-! ## Sample values for the worked examples -/

/-- A configuration without publishing credential. -/
def sampleConfig : Config :=
  { QUEUE_CHANNEL_ID := "900", ONLINE_CATEGORY_ID := "10", INPERSON_CATEGORY_ID := "20",
    TA_ROLE_ID := "31", HEAD_TA_ROLE_ID := "32", INSTRUCTOR_ROLE_ID := "33",
    TRANSCRIPT_CHANNEL_ID := "901", GITHUB_TOKEN := none }

/-- A host that prints time stamps as numbers and uses no style sheet. -/
def sampleHost : Host :=
  { formatTimestamp := fun t => toString t,
    initialOf := fun name => String.mk (name.data.take 1),
    styleSheet := "" }

/-- A text channel with the given id and parent, owned by the student `501`. -/
def sampleChannel (id : String) (parentId : Option String) : Channel :=
  { id := id, name := "ticket-" ++ id, type := ChannelType.GuildText, parentId := parentId,
    guildId := "1", createdAt := 0, permissionOverwrites := [("501", 1)] }

/-- An online ticket channel. -/
def sampleTicket : Channel := sampleChannel "100" (some "10")

/-- An in-person ticket channel. -/
def otherTicket : Channel := sampleChannel "200" (some "20")

/-- A guild member with the given id and roles. -/
def sampleMember (id : String) (roles : List String) : Member :=
  { id := id, roles := roles, userTag := "user" ++ id, userBot := false,
    displayName := "User " ++ id }

/-- A world in which every fetch and every call succeeds. -/
def sampleWorld : World :=
  { now := 7,
    fetchChannel := fun id =>
      if id = "100" then some sampleTicket
      else if id = "200" then some otherTicket
      else some (sampleChannel id none),
    fetchMember := fun id => some (sampleMember id []),
    fetchMessage := fun _ => some 1,
    fetchUser := fun id => some id,
    newMessageId := "700",
    gist := GistResponse.throws,
    ok := fun _ => true }

/-- A message with the given id and text in the given channel, written by the student. -/
def sampleMessage (id : String) (channel : Channel) (content : String) : Message :=
  { id := id, channel := channel, author := ⟨"student", "student#0001", false⟩,
    content := content, embeds := 0, attachments := [], createdAt := 1 }

/-- A button click with the given control identifier by the given member. -/
def sampleClick (customId : String) (member : Member) : Interaction :=
  { kind := InteractionKind.button, customId := customId, member := member,
    user := "<@" ++ member.id ++ ">", issue := none, tried := none, messageId := "700" }

/-- Two messages of the sample ticket with a message and the closing of another ticket
delivered in between. -/
def sampleEvents : List Event :=
  [Event.messageCreate (sampleMessage "1" sampleTicket "hi"),
   Event.messageCreate (sampleMessage "2" otherTicket "elsewhere"),
   Event.channelDelete sampleWorld otherTicket,
   Event.messageCreate (sampleMessage "3" sampleTicket "need help with step 3")]

/-- The expression `getTextInputValue(name) ?? ''`: the submitted text as typed. -/
def rawInput (value : Option String) : String :=
  match value with
  | none => ""
  | some v => v

/-- A submitted help-request form for ticket `100` with the given texts. -/
def sampleSubmission (issue tried : String) : Interaction :=
  { kind := InteractionKind.modalSubmit, customId := "reqform:100",
    member := sampleMember "501" [], user := "<@501>", issue := some issue,
    tried := some tried, messageId := "" }

/-- A form whose issue summary is twenty spaces. -/
def paddedSubmission : Interaction :=
  sampleSubmission "                    " "I read the handout and tried the first two steps"

/-- A form with a 25-character issue summary and a 48-character attempt description. -/
def validSubmission : Interaction :=
  sampleSubmission "Stuck on step 3 of part B" "I read the handout and tried the first two steps"

/-! ## Vocabulary for the queue entries and the claimant lists -/

/-- The status of a help-request entry, as the specification names it.  The source stores
no status: the status of an entry is what its queue post shows. -/
inductive EntryStatus
  | Pending
  | Claimed
  | ClosedUnclaimed
  | ClosedAfterClaim
deriving DecidableEq, Repr

/-- The status a footer announces; the footer of a closed ticket announces none. -/
def Footer.status : Footer → Option EntryStatus
  | Footer.ticketId _ => some EntryStatus.Pending
  | Footer.claimedBy _ _ => some EntryStatus.Claimed
  | Footer.closedWithoutJoining _ => some EntryStatus.ClosedUnclaimed
  | Footer.dismissedBy _ => some EntryStatus.ClosedAfterClaim
  | Footer.ticketClosed _ => none

/-- The status of the queue post `messageId` after a list of calls, given its status before:
every successful `interaction.update` of that post sets the status its footer announces. -/
def statusAfter (messageId : String) : EntryStatus → List Effect → EntryStatus
  | status, [] => status
  | status, ⟨Call.update m footer _, true⟩ :: rest =>
    if m = messageId then statusAfter messageId ((Footer.status footer).getD status) rest
    else statusAfter messageId status rest
  | status, _ :: rest => statusAfter messageId status rest

/-- Append `tag` unless it is already in the list. -/
def appendIfAbsent (l : List String) (tag : String) : List String :=
  if tag ∈ l then l else l ++ [tag]

/-- The event opens a session for channel id `c`: `ChannelCreate` of a channel with that id. -/
def opensSession (c : String) : Event → Bool
  | Event.channelCreate _ channel => decide (channel.id = c)
  | _ => false

/-- The event closes the channel with id `c`: `ChannelDelete` of a channel with that id. -/
def closesSession (c : String) : Event → Bool
  | Event.channelDelete _ channel => decide (channel.id = c)
  | _ => false

/-- The three calls of a claim that runs to its end (lines 631-669), in order. -/
def claimCalls (i : Interaction) (ticketChannel : Channel) (now : Nat) : List Call :=
  [Call.permissionsEdit ticketChannel.id i.member.id,
   Call.update i.messageId (Footer.claimedBy i.member.displayName now)
     [⟨"claimed_disabled", true⟩, ⟨"qclose_claimed:" ++ idField i.customId, false⟩],
   Call.sendJoined ticketChannel.id i.member.id]

/-- The stores after ticket `100` was created and a valid help request was submitted: the
session has no claimant and the queue post `700` is tracked, with status Pending. -/
def pendingState : State :=
  (run sampleHost sampleConfig State.empty
    [Event.channelCreate sampleWorld sampleTicket,
     Event.interactionCreate sampleWorld validSubmission]).state

/-- The `claimedBy` list of the session of channel id `c`, when the session exists. -/
def claimedByOf (s : State) (c : String) : Option (List String) :=
  (JsMap.get s.ticketMetadata c).map Metadata.claimedBy

/-! ## Vocabulary for the deliveries of a closing ticket -/

/-- The call is the request to the publishing service of line 386. -/
def Call.isGistPost : Call → Bool
  | Call.gistPost _ _ => true
  | _ => false

/-- The call is the archive post of line 895. -/
def Call.isArchiveSend : Call → Bool
  | Call.archiveSend _ _ _ _ _ => true
  | _ => false

/-- The call is the direct message of line 927. -/
def Call.isDirectMessage : Call → Bool
  | Call.directMessage _ _ _ _ _ => true
  | _ => false

/-- The number of calls of the given kind that were issued, whatever their outcome. -/
def attempts (kind : Call → Bool) (effects : List Effect) : Nat :=
  effects.countP (fun e => kind e.call)

/-- The number of calls of the given kind that were issued and resolved. -/
def deliveries (kind : Call → Bool) (effects : List Effect) : Nat :=
  effects.countP (fun e => kind e.call && e.ok)

/-- A world like `sampleWorld` in which the archive post rejects. -/
def archiveFailingWorld : World :=
  { sampleWorld with ok := fun c => !Call.isArchiveSend c }

/-- A world like `sampleWorld` in which the direct message rejects. -/
def directMessageFailingWorld : World :=
  { sampleWorld with ok := fun c => !Call.isDirectMessage c }

/-- A world like `sampleWorld` in which the queue post cannot be fetched. -/
def queueFetchFailingWorld : World :=
  { sampleWorld with fetchMessage := fun _ => none }

/-- The stores after ticket `100` was created and one message was cached. -/
def openState : State :=
  (run sampleHost sampleConfig State.empty
    [Event.channelCreate sampleWorld sampleTicket,
     Event.messageCreate (sampleMessage "1" sampleTicket "hi")]).state

/-- The stores of `pendingState` after one more message was cached: ticket `100` has a
tracked queue entry and a cached message. -/
def pendingOpenState : State :=
  (onMessageCreate sampleConfig pendingState (sampleMessage "1" sampleTicket "hi")).state

/-- The document of line 846 for a session whose metadata is defined. -/
def transcriptDocument (host : Host) (cfg : Config) (w : World) (channel : Channel)
    (messages : List Message) (md : Metadata) : String :=
  headerHTML host cfg w.now channel md ++
    messages.foldl (fun acc msg => acc ++ messageHTML host msg) "" ++
    footerHTML channel messages

/-- The file name of line 847. -/
def transcriptFilename (w : World) (channel : Channel) : String :=
  "transcript-" ++ channel.name ++ "-" ++ toString w.now ++ ".html"

/-- The student id found by the loop of lines 832-844. -/
def studentIdOf (w : World) (channel : Channel) : Option String :=
  (firstHumanMember w channel.permissionOverwrites).map Member.id

/-- The link returned by `uploadToGist` for the document of the session. -/
def gistUrlOf (host : Host) (cfg : Config) (w : World) (channel : Channel)
    (messages : List Message) (md : Metadata) : Option String :=
  (uploadToGist cfg w (transcriptDocument host cfg w channel messages md)
    (transcriptFilename w channel)).1

/-- The summary of lines 864-875 for a session with the given messages and metadata. -/
def archiveSummary (cfg : Config) (w : World) (channel : Channel) (messages : List Message)
    (md : Metadata) : Summary :=
  { channelName := channel.name,
    category := getCategoryName cfg channel,
    ticketId := channel.id,
    openedBy := orElse md.opener "Unknown",
    studentId := orElse (studentIdOf w channel) "Unknown",
    staffInvolved :=
      if md.claimedBy.length > 0 then jsJoin ", " md.claimedBy
      else "None (student worked independently)",
    messages := toString messages.length ++ " messages" }

/-- The archive post of line 895 for a session with the given messages and metadata. -/
def archiveCall (host : Host) (cfg : Config) (w : World) (channel : Channel)
    (messages : List Message) (md : Metadata) (transcriptChannel : Channel) : Call :=
  Call.archiveSend transcriptChannel.id (archiveSummary cfg w channel messages md)
    (transcriptFilename w channel) (transcriptDocument host cfg w channel messages md)
    (if truthy (gistUrlOf host cfg w channel messages md) then
      gistUrlOf host cfg w channel messages md else none)

/-- A configuration with a publishing credential. -/
def publishingConfig : Config := { sampleConfig with GITHUB_TOKEN := some "ghp_token" }

/-- A world like `sampleWorld` whose publishing service answers with one file. -/
def publishingWorld : World :=
  { sampleWorld with
    gist := GistResponse.ok [("transcript.html", some "https://gist.example/raw/1")] }

/-- A world like `publishingWorld` in which the request to the publishing service rejects. -/
def publishFailingWorld : World :=
  { publishingWorld with ok := fun c => !Call.isGistPost c }

/-! ## Vocabulary for the transcript document -/

/-- The marker of an automated author. -/
def botMarker (isBot : Bool) : String :=
  if isBot then "<span class=\"bot-tag\">BOT</span>" else ""

/-- The text element of a message: absent for an empty text. -/
def textElement (content : String) : String :=
  if content = "" then "" else "<div class=\"message-text\">" ++ escapeHtml content ++ "</div>"

/-- The embed placeholder of a message with `k` embeds: absent for `k = 0`, `[1 embed]` for
`k = 1` and `[k embeds]` otherwise. -/
def embedPlaceholder (k : Nat) : String :=
  if k = 0 then ""
  else "<div class=\"embed\">[" ++ toString k ++ (if k = 1 then " embed" else " embeds") ++
    "]</div>"

/-- One attachment block per attachment, in order. -/
def attachmentLinks (attachments : List Attachment) : String :=
  String.join (attachments.map attachmentHTML)

/-- The fixed frame of a message block around its eight variable parts. -/
def messageFrame (avatarClass initial author marker timestamp text embed attachments : String) :
    String :=
  "\n            <div class=\"message\">" ++
  "\n                <div class=\"avatar " ++ avatarClass ++ "\">" ++ initial ++ "</div>" ++
  "\n                <div class=\"message-content-wrapper\">" ++
  "\n                    <div class=\"message-header\">" ++
  "\n                        <span class=\"author\">" ++ author ++ "</span>" ++
  "\n                        " ++ marker ++
  "\n                        <span class=\"timestamp\">" ++ timestamp ++ "</span>" ++
  "\n                    </div>" ++
  "\n                    " ++ text ++
  "\n                    " ++ embed ++
  "\n                    " ++ attachments ++
  "\n                </div>" ++
  "\n            </div>"

/-- The name shown for an author: `username`, or `tag` when the user name is empty. -/
def authorName (author : Author) : String :=
  if author.username = "" then author.tag else author.username

/-- A message with one embed and two attachments, written by a bot. -/
def richMessage : Message :=
  { id := "9", channel := sampleTicket, author := ⟨"JustinBot", "JustinBot#0001", true⟩,
    content := "a < b", embeds := 1,
    attachments := [⟨"notes.txt", "https://cdn.example/notes.txt"⟩,
      ⟨"log.txt", "https://cdn.example/log.txt"⟩],
    createdAt := 2 }

/-- The metadata of a session opened by `user501` and joined by two staff members. -/
def sampleMetadata : Metadata := ⟨3, some "user501", ["user601", "o'neil"]⟩

/-- The document the source produces for ticket `100` with the messages `hi` and
`richMessage`, the metadata `sampleMetadata`, closing time `7` and `sampleHost`, written out
from the template of lines 122-375. -/
def expectedDocument : String :=
    "<!DOCTYPE html>\n" ++
    "<html lang=\"en\">\n" ++
    "<head>\n" ++
    "    <meta charset=\"UTF-8\">\n" ++
    "    <meta name=\"viewport\" content=\"width=device-width, initial-scale=1.0\">\n" ++
    "    <title>Ticket Transcript - ticket-100</title>\n" ++
    "    <style></style>\n" ++
    "</head>\n" ++
    "<body>\n" ++
    "    <div class=\"container\">\n" ++
    "        <div class=\"header\">\n" ++
    "            <h1>#ticket-100</h1>\n" ++
    "            <div class=\"metadata\">\n" ++
    "                <div class=\"metadata-item\">\n" ++
    "                    <div class=\"metadata-label\">Category</div>\n" ++
    "                    <div class=\"metadata-value\">Online</div>\n" ++
    "                </div>\n" ++
    "                <div class=\"metadata-item\">\n" ++
    "                    <div class=\"metadata-label\">Ticket ID</div>\n" ++
    "                    <div class=\"metadata-value\">100</div>\n" ++
    "                </div>\n" ++
    "                <div class=\"metadata-item\">\n" ++
    "                    <div class=\"metadata-label\">Opened By</div>\n" ++
    "                    <div class=\"metadata-value\">user501</div>\n" ++
    "                </div>\n" ++
    "                <div class=\"metadata-item\">\n" ++
    "                    <div class=\"metadata-label\">Staff Involved</div>\n" ++
    "                    <div class=\"metadata-value\">user601, o&#039;neil</div>\n" ++
    "                </div>\n" ++
    "                <div class=\"metadata-item\">\n" ++
    "                    <div class=\"metadata-label\">Created</div>\n" ++
    "                    <div class=\"metadata-value\">0</div>\n" ++
    "                </div>\n" ++
    "                <div class=\"metadata-item\">\n" ++
    "                    <div class=\"metadata-label\">Closed</div>\n" ++
    "                    <div class=\"metadata-value\">7</div>\n" ++
    "                </div>\n" ++
    "            </div>\n" ++
    "        </div>\n" ++
    "        \n" ++
    "        <div class=\"messages\">\n" ++
    "            <div class=\"message\">\n" ++
    "                <div class=\"avatar \">s</div>\n" ++
    "                <div class=\"message-content-wrapper\">\n" ++
    "                    <div class=\"message-header\">\n" ++
    "                        <span class=\"author\">student</span>\n" ++
    "                        \n" ++
    "                        <span class=\"timestamp\">1</span>\n" ++
    "                    </div>\n" ++
    "                    <div class=\"message-text\">hi</div>\n" ++
    "                    \n" ++
    "                    \n" ++
    "                </div>\n" ++
    "            </div>\n" ++
    "            <div class=\"message\">\n" ++
    "                <div class=\"avatar bot\">J</div>\n" ++
    "                <div class=\"message-content-wrapper\">\n" ++
    "                    <div class=\"message-header\">\n" ++
    "                        <span class=\"author\">JustinBot</span>\n" ++
    "                        <span class=\"bot-tag\">BOT</span>\n" ++
    "                        <span class=\"timestamp\">2</span>\n" ++
    "                    </div>\n" ++
    "                    <div class=\"message-text\">a &lt; b</div>\n" ++
    "                    <div class=\"embed\">[1 embed]</div>\n" ++
    "                    \n" ++
    "                    <div class=\"attachment\">\n" ++
    "                        <div class=\"attachment-label\">Attachment</div>\n" ++
    "                        <a href=\"https://cdn.example/notes.txt\" class=\"attachment-link\" target=\"_blank\">notes.txt</a>\n" ++
    "                    </div>\n" ++
    "                    <div class=\"attachment\">\n" ++
    "                        <div class=\"attachment-label\">Attachment</div>\n" ++
    "                        <a href=\"https://cdn.example/log.txt\" class=\"attachment-link\" target=\"_blank\">log.txt</a>\n" ++
    "                    </div>\n" ++
    "                </div>\n" ++
    "            </div>\n" ++
    "        </div>\n" ++
    "        \n" ++
    "        <div class=\"footer\">\n" ++
    "            Transcript generated for ticket-100 • 2 messages\n" ++
    "        </div>\n" ++
    "    </div>\n" ++
    "</body>\n" ++
    "</html>"

/-! ## Vocabulary for `escapeHtml` -/

/-- The five characters `escapeHtml` replaces. -/
def isSpecial (c : Char) : Bool :=
  c = '&' || c = '<' || c = '>' || c = '"' || c = '\x27'

/-- The five entities `escapeHtml` produces. -/
def entities : List String := ["&amp;", "&lt;", "&gt;", "&quot;", "&#039;"]

/-- Replace the five entities back by their characters, scanning from the left; `skip` is
the number of characters of an entity still to pass over. -/
def unescapeAux : Nat → List Char → List Char
  | _, [] => []
  | skip + 1, _ :: rest => unescapeAux skip rest
  | 0, c :: rest =>
    if c = '&' then
      if "amp;".data.isPrefixOf rest then '&' :: unescapeAux 4 rest
      else if "lt;".data.isPrefixOf rest then '<' :: unescapeAux 3 rest
      else if "gt;".data.isPrefixOf rest then '>' :: unescapeAux 3 rest
      else if "quot;".data.isPrefixOf rest then '"' :: unescapeAux 5 rest
      else if "#039;".data.isPrefixOf rest then '\x27' :: unescapeAux 5 rest
      else c :: unescapeAux 0 rest
    else c :: unescapeAux 0 rest

/-- The inverse of `escapeHtml`: the five entities are replaced back by their characters. -/
def unescapeHtml (text : String) : String := String.mk (unescapeAux 0 text.data)

/-! ## Vocabulary for the coherence of the stores -/

/-- The stores `ticketMetadata` and `cachedMessages` have the same channel ids. -/
def Coherent (s : State) : Prop :=
  ∀ c : String,
    (JsMap.get s.ticketMetadata c).isSome = (JsMap.get s.cachedMessages c).isSome

/-! ## Vocabulary for the dispatch of interactions -/

/-- The five tests that guard the blocks of the `InteractionCreate` handler (lines 517, 551,
611, 675 and 717), in source order. -/
def branchGuards (i : Interaction) : List Bool :=
  [decide (i.kind = InteractionKind.button) && startsWith i.customId "reqhelp:",
   decide (i.kind = InteractionKind.modalSubmit) && startsWith i.customId "reqform:",
   decide (i.kind = InteractionKind.button) && startsWith i.customId "claim:",
   decide (i.kind = InteractionKind.button) && startsWith i.customId "qclose:",
   decide (i.kind = InteractionKind.button) && startsWith i.customId "qclose_claimed:"]

/-- The five prefix tests of the handler on a control identifier, in source order. -/
def prefixTests (customId : String) : List Bool :=
  [startsWith customId "reqhelp:", startsWith customId "reqform:",
   startsWith customId "claim:", startsWith customId "qclose:",
   startsWith customId "qclose_claimed:"]

/-- A session joined by forty staff members, whose joined tags exceed 1024 code units. -/
def crowdedMetadata : Metadata :=
  ⟨3, some "user501", List.replicate 40 "staff-member-with-a-long-tag"⟩

/-- The stores with ticket `100` holding one cached message and `crowdedMetadata`. -/
def crowdedState : State :=
  { ticketMetadata := [("100", crowdedMetadata)],
    cachedMessages := [("100", [sampleMessage "1" sampleTicket "hi"])],
    queueMessages := [] }

/-! ## Lemmas on `JsMap` -/

theorem JsMap.get_set_self {V : Type} (m : JsMap V) (k : String) (v : V) :
    JsMap.get (JsMap.set m k v) k = some v := by
  induction m with
  | nil => simp [JsMap.set, JsMap.get]
  | cons p rest ih =>
    obtain ⟨k', v'⟩ := p
    by_cases h : k' = k
    · simp [JsMap.set, JsMap.get, h]
    · simp [JsMap.set, JsMap.get, h, ih]

theorem JsMap.get_set_ne {V : Type} (m : JsMap V) (k k0 : String) (v : V) (h : k ≠ k0) :
    JsMap.get (JsMap.set m k v) k0 = JsMap.get m k0 := by
  induction m with
  | nil => simp [JsMap.set, JsMap.get, h]
  | cons p rest ih =>
    obtain ⟨k', v'⟩ := p
    by_cases h1 : k' = k
    · subst h1
      simp [JsMap.set, JsMap.get, h]
    · by_cases h2 : k' = k0
      · subst h2
        simp [JsMap.set, JsMap.get, h1]
      · simp [JsMap.set, JsMap.get, h1, h2, ih]

theorem JsMap.get_delete_self {V : Type} (m : JsMap V) (k : String) :
    JsMap.get (JsMap.delete m k) k = none := by
  induction m with
  | nil => simp [JsMap.delete, JsMap.get]
  | cons p rest ih =>
    obtain ⟨k', v'⟩ := p
    by_cases h : k' = k
    · simp [JsMap.delete, h, ih]
    · simp [JsMap.delete, JsMap.get, h, ih]

theorem JsMap.get_delete_ne {V : Type} (m : JsMap V) (k k0 : String) (h : k ≠ k0) :
    JsMap.get (JsMap.delete m k) k0 = JsMap.get m k0 := by
  induction m with
  | nil => simp [JsMap.delete, JsMap.get]
  | cons p rest ih =>
    obtain ⟨k', v'⟩ := p
    by_cases h1 : k' = k
    · subst h1
      simp [JsMap.delete, JsMap.get, h, ih]
    · by_cases h2 : k' = k0
      · subst h2
        simp [JsMap.delete, JsMap.get, h1]
      · simp [JsMap.delete, JsMap.get, h1, h2, ih]

/-! ## The message cache under each handler -/

theorem Run.andThen_cachedMessages (r : Run) (f : Run → Run)
    (hf : ∀ r0 : Run, (f r0).state.cachedMessages = r0.state.cachedMessages) :
    (r.andThen f).state.cachedMessages = r.state.cachedMessages := by
  unfold Run.andThen
  split
  · exact hf r
  · rfl

theorem reqhelpBranch_cachedMessages (w : World) (i : Interaction) (r : Run) :
    (reqhelpBranch w i r).state.cachedMessages = r.state.cachedMessages := by
  unfold reqhelpBranch
  split <;> rfl

theorem reqformBranch_cachedMessages (cfg : Config) (w : World) (i : Interaction) (r : Run) :
    (reqformBranch cfg w i r).state.cachedMessages = r.state.cachedMessages := by
  unfold reqformBranch
  try dsimp only
  repeat' split
  all_goals rfl

theorem recordClaimant_cachedMessages (s : State) (channelId tag : String) :
    (recordClaimant s channelId tag).cachedMessages = s.cachedMessages := by
  unfold recordClaimant
  repeat' split
  all_goals rfl

theorem recordClaimant_queueMessages (s : State) (channelId tag : String) :
    (recordClaimant s channelId tag).queueMessages = s.queueMessages := by
  unfold recordClaimant
  repeat' split
  all_goals rfl

theorem claimBranch_cachedMessages (cfg : Config) (w : World) (i : Interaction) (r : Run) :
    (claimBranch cfg w i r).state.cachedMessages = r.state.cachedMessages := by
  unfold claimBranch
  try dsimp only
  repeat' split
  all_goals first | rfl | exact recordClaimant_cachedMessages _ _ _

theorem qcloseBranch_cachedMessages (cfg : Config) (w : World) (i : Interaction) (r : Run) :
    (qcloseBranch cfg w i r).state.cachedMessages = r.state.cachedMessages := by
  unfold qcloseBranch
  try dsimp only
  repeat' split
  all_goals rfl

theorem qcloseClaimedBranch_cachedMessages (cfg : Config) (w : World) (i : Interaction)
    (r : Run) :
    (qcloseClaimedBranch cfg w i r).state.cachedMessages = r.state.cachedMessages := by
  unfold qcloseClaimedBranch
  try dsimp only
  repeat' split
  all_goals rfl

theorem catchBlock_state (w : World) (r : Run) : (catchBlock w r).state = r.state := by
  unfold catchBlock
  try dsimp only
  repeat' split
  all_goals rfl

theorem onInteractionCreate_cachedMessages (cfg : Config) (w : World) (s : State)
    (i : Interaction) :
    (onInteractionCreate cfg w s i).state.cachedMessages = s.cachedMessages := by
  unfold onInteractionCreate interactionBody
  rw [catchBlock_state,
    Run.andThen_cachedMessages _ _ (qcloseClaimedBranch_cachedMessages cfg w i),
    Run.andThen_cachedMessages _ _ (qcloseBranch_cachedMessages cfg w i),
    Run.andThen_cachedMessages _ _ (claimBranch_cachedMessages cfg w i),
    Run.andThen_cachedMessages _ _ (reqformBranch_cachedMessages cfg w i),
    Run.andThen_cachedMessages _ _ (reqhelpBranch_cachedMessages w i)]

theorem closeQueuePost_cachedMessages (cfg : Config) (w : World) (s : State)
    (channel : Channel) :
    (closeQueuePost cfg w s channel).1.cachedMessages = s.cachedMessages := by
  unfold closeQueuePost
  try dsimp only
  repeat' split
  all_goals rfl

theorem closeQueuePost_ticketMetadata (cfg : Config) (w : World) (s : State)
    (channel : Channel) :
    (closeQueuePost cfg w s channel).1.ticketMetadata = s.ticketMetadata := by
  unfold closeQueuePost
  try dsimp only
  repeat' split
  all_goals rfl

theorem onChannelDelete_get_cachedMessages (host : Host) (cfg : Config) (w : World)
    (s : State) (channel : Channel) (c : String) (h : channel.id ≠ c) :
    JsMap.get (onChannelDelete host cfg w s channel).state.cachedMessages c =
      JsMap.get s.cachedMessages c := by
  unfold onChannelDelete channelDeleteRun
  try dsimp only
  repeat' split
  all_goals try rfl
  all_goals
    simp only [closeQueuePost_cachedMessages, JsMap.get_delete_ne _ _ _ h]

theorem onChannelCreate_get_cachedMessages (cfg : Config) (w : World) (s : State)
    (channel : Channel) (c : String) (h : channel.id ≠ c) :
    JsMap.get (onChannelCreate cfg w s channel).state.cachedMessages c =
      JsMap.get s.cachedMessages c := by
  unfold onChannelCreate
  try dsimp only
  repeat' split
  all_goals try rfl
  all_goals
    simp only [JsMap.get_set_ne _ _ _ _ h]

theorem onChannelCreate_opens (cfg : Config) (w : World) (s : State) (channel : Channel)
    (h : isTicketChannel cfg (some channel) = true) :
    JsMap.get (onChannelCreate cfg w s channel).state.cachedMessages channel.id = some [] := by
  unfold onChannelCreate
  simp only [h, Bool.not_true, Bool.false_eq_true, if_false]
  try dsimp only
  repeat' split
  all_goals
    simp only [JsMap.get_set_self]

theorem onMessageCreate_get_same (cfg : Config) (s : State) (m : Message)
    (l : List Message) (ht : isTicketChannel cfg (some m.channel) = true)
    (hl : JsMap.get s.cachedMessages m.channel.id = some l) :
    JsMap.get (onMessageCreate cfg s m).state.cachedMessages m.channel.id = some (l ++ [m]) := by
  unfold onMessageCreate
  simp [ht, hl, JsMap.get_set_self]

theorem onMessageCreate_get_other (cfg : Config) (s : State) (m : Message) (c : String)
    (h : m.channel.id ≠ c) :
    JsMap.get (onMessageCreate cfg s m).state.cachedMessages c = JsMap.get s.cachedMessages c := by
  unfold onMessageCreate
  try dsimp only
  repeat' split
  all_goals try rfl
  all_goals simp only [JsMap.get_set_ne _ _ _ _ h]

theorem run_get_cachedMessages (host : Host) (cfg : Config) (c : String) (evs : List Event) :
    ∀ (s : State) (l : List Message), JsMap.get s.cachedMessages c = some l →
      (∀ e ∈ evs, duringSession cfg c e = true) →
      JsMap.get (run host cfg s evs).state.cachedMessages c = some (l ++ deliveredTo c evs) := by
  induction evs with
  | nil =>
    intro s l hl _
    simp [run, deliveredTo, hl]
  | cons e es ih =>
    intro s l hl hev
    have he := hev e (List.mem_cons_self e es)
    have hes : ∀ e0 ∈ es, duringSession cfg c e0 = true :=
      fun e0 h0 => hev e0 (List.mem_cons_of_mem e h0)
    cases e with
    | channelCreate w channel =>
      have hne : channel.id ≠ c := by simpa [duringSession] using he
      have h1 := onChannelCreate_get_cachedMessages cfg w s channel c hne
      have := ih (onChannelCreate cfg w s channel).state l (h1.trans hl) hes
      simpa [run, step, deliveredTo] using this
    | messageCreate m =>
      by_cases hm : m.channel.id = c
      · have ht : isTicketChannel cfg (some m.channel) = true := by
          simpa [duringSession, hm] using he
        have h1 := onMessageCreate_get_same cfg s m l ht (hm ▸ hl)
        rw [hm] at h1
        have := ih (onMessageCreate cfg s m).state (l ++ [m]) h1 hes
        simpa [run, step, deliveredTo, hm] using this
      · have h1 := onMessageCreate_get_other cfg s m c hm
        have := ih (onMessageCreate cfg s m).state l (h1.trans hl) hes
        simpa [run, step, deliveredTo, hm] using this
    | interactionCreate w i =>
      have h1 := onInteractionCreate_cachedMessages cfg w s i
      have := ih (onInteractionCreate cfg w s i).state l (by rw [h1]; exact hl) hes
      simpa [run, step, deliveredTo] using this
    | channelDelete w channel =>
      have hne : channel.id ≠ c := by simpa [duringSession] using he
      have h1 := onChannelDelete_get_cachedMessages host cfg w s channel c hne
      have := ih (onChannelDelete host cfg w s channel).state l (h1.trans hl) hes
      simpa [run, step, deliveredTo] using this

/-! ## C1: cache fidelity -/

/-- C1, cache fidelity.  After the `ChannelCreate` handler has opened the session of a ticket
channel, and after any sequence of events in which every message of that channel is delivered
by `MessageCreate` and every other event is an interaction or belongs to another channel, the
value `cachedMessages.get(channel.id)` read by the `ChannelDelete` handler is exactly the list
of the messages delivered for that channel, in delivery order. -/
theorem cache_fidelity (host : Host) (cfg : Config) (w : World) (s : State)
    (channel : Channel) (evs : List Event)
    (hticket : isTicketChannel cfg (some channel) = true)
    (hevs : ∀ e ∈ evs, duringSession cfg channel.id e = true) :
    JsMap.get (run host cfg (onChannelCreate cfg w s channel).state evs).state.cachedMessages
        channel.id
      = some (deliveredTo channel.id evs) := by
  have h := run_get_cachedMessages host cfg channel.id evs
    (onChannelCreate cfg w s channel).state [] (onChannelCreate_opens cfg w s channel hticket)
    hevs
  simpa using h

/-- Worked example of C1: two messages of ticket `100`, with events of ticket `200` in
between, are cached in delivery order. -/
theorem cache_fidelity_witness :
    JsMap.get
        (run sampleHost sampleConfig
          (onChannelCreate sampleConfig sampleWorld State.empty sampleTicket).state
          sampleEvents).state.cachedMessages sampleTicket.id
      = some [sampleMessage "1" sampleTicket "hi",
          sampleMessage "3" sampleTicket "need help with step 3"] := by
  have h := cache_fidelity sampleHost sampleConfig sampleWorld State.empty sampleTicket
    sampleEvents (by decide) (by decide)
  rw [h]
  decide

/-! ## C9: a message for an unknown session -/

/-- C9, unknown-session append.  A `MessageCreate` event whose channel has no entry in
`cachedMessages` leaves the three stores exactly as they were and issues no call: no session
is created and no cache changes. -/
theorem unknown_session_append_noop (cfg : Config) (s : State) (message : Message)
    (hunknown : JsMap.get s.cachedMessages message.channel.id = none) :
    onMessageCreate cfg s message = ⟨s, []⟩ := by
  unfold onMessageCreate
  split
  · rfl
  · rw [hunknown]

/-- Worked example of C9: a message for ticket `100` arriving before any session exists. -/
theorem unknown_session_append_noop_witness :
    onMessageCreate sampleConfig State.empty (sampleMessage "1" sampleTicket "hi")
      = ⟨State.empty, []⟩ :=
  unknown_session_append_noop sampleConfig State.empty (sampleMessage "1" sampleTicket "hi")
    (by decide)

/-! ## C10: a session without messages -/

/-- C10, empty-session suppression.  When the `ChannelDelete` handler runs for a ticket
channel whose cache is missing or empty, the run ends at the early exit of line 782: no
document is generated, no call is issued (no publish request, no archive post, no direct
message) and the stores are unchanged. -/
theorem empty_session_suppression (host : Host) (cfg : Config) (w : World) (s : State)
    (channel : Channel) (hticket : isTicketChannel cfg (some channel) = true)
    (hempty : JsMap.get s.cachedMessages channel.id = none ∨
      JsMap.get s.cachedMessages channel.id = some []) :
    channelDeleteRun host cfg w s channel = ⟨s, [], none, DeleteExit.noMessages⟩ ∧
      onChannelDelete host cfg w s channel = ⟨s, []⟩ := by
  have h : channelDeleteRun host cfg w s channel = ⟨s, [], none, DeleteExit.noMessages⟩ := by
    unfold channelDeleteRun
    rcases hempty with h | h <;> simp [hticket, h]
  exact ⟨h, by simp [onChannelDelete, h]⟩

/-- Worked example of C10: ticket `100` is deleted right after its creation. -/
theorem empty_session_suppression_witness :
    channelDeleteRun sampleHost sampleConfig sampleWorld
        (onChannelCreate sampleConfig sampleWorld State.empty sampleTicket).state sampleTicket
      = ⟨(onChannelCreate sampleConfig sampleWorld State.empty sampleTicket).state, [], none,
          DeleteExit.noMessages⟩ :=
  (empty_session_suppression sampleHost sampleConfig sampleWorld
    (onChannelCreate sampleConfig sampleWorld State.empty sampleTicket).state sampleTicket
    (by decide) (Or.inr (by decide))).1

/-! ## Dispatch on the control identifier -/

theorem data_reqhelp : "reqhelp:".data = ['r', 'e', 'q', 'h', 'e', 'l', 'p', ':'] := rfl

theorem data_reqform : "reqform:".data = ['r', 'e', 'q', 'f', 'o', 'r', 'm', ':'] := rfl

theorem data_claim : "claim:".data = ['c', 'l', 'a', 'i', 'm', ':'] := rfl

theorem data_qclose : "qclose:".data = ['q', 'c', 'l', 'o', 's', 'e', ':'] := rfl

theorem data_qclose_claimed :
    "qclose_claimed:".data =
      ['q', 'c', 'l', 'o', 's', 'e', '_', 'c', 'l', 'a', 'i', 'm', 'e', 'd', ':'] := rfl

theorem startsWith_claim_only (id : String) (h : startsWith id "claim:" = true) :
    startsWith id "reqhelp:" = false ∧ startsWith id "qclose:" = false ∧
      startsWith id "qclose_claimed:" = false := by
  unfold startsWith at *
  rw [List.isPrefixOf_iff_prefix] at h
  obtain ⟨t, ht⟩ := h
  rw [← ht, data_claim, data_reqhelp, data_qclose, data_qclose_claimed]
  simp [List.isPrefixOf]

theorem startsWith_qclose_only (id : String) (h : startsWith id "qclose:" = true) :
    startsWith id "reqhelp:" = false ∧ startsWith id "claim:" = false ∧
      startsWith id "qclose_claimed:" = false := by
  unfold startsWith at *
  rw [List.isPrefixOf_iff_prefix] at h
  obtain ⟨t, ht⟩ := h
  rw [← ht, data_claim, data_reqhelp, data_qclose, data_qclose_claimed]
  simp [List.isPrefixOf]

theorem startsWith_qclose_claimed_only (id : String)
    (h : startsWith id "qclose_claimed:" = true) :
    startsWith id "reqhelp:" = false ∧ startsWith id "claim:" = false ∧
      startsWith id "qclose:" = false := by
  unfold startsWith at *
  rw [List.isPrefixOf_iff_prefix] at h
  obtain ⟨t, ht⟩ := h
  rw [← ht, data_claim, data_reqhelp, data_qclose, data_qclose_claimed]
  simp [List.isPrefixOf]

theorem Run.andThen_skip (r : Run) (f : Run → Run) (hf : ∀ r0 : Run, f r0 = r0) :
    r.andThen f = r := by
  unfold Run.andThen
  split
  · exact hf r
  · rfl

theorem Run.andThen_next (s : State) (f : Run → Run) :
    (Run.mk s [] false Flow.next).andThen f = f (Run.mk s [] false Flow.next) := rfl

theorem reqhelpBranch_skip (w : World) (i : Interaction) (r : Run)
    (h : (decide (i.kind = InteractionKind.button) && startsWith i.customId "reqhelp:") = false) :
    reqhelpBranch w i r = r := by
  unfold reqhelpBranch
  simp [h]

theorem reqformBranch_skip (cfg : Config) (w : World) (i : Interaction) (r : Run)
    (h : (decide (i.kind = InteractionKind.modalSubmit) && startsWith i.customId "reqform:")
      = false) :
    reqformBranch cfg w i r = r := by
  unfold reqformBranch
  simp [h]

theorem claimBranch_skip (cfg : Config) (w : World) (i : Interaction) (r : Run)
    (h : (decide (i.kind = InteractionKind.button) && startsWith i.customId "claim:") = false) :
    claimBranch cfg w i r = r := by
  unfold claimBranch
  simp [h]

theorem qcloseBranch_skip (cfg : Config) (w : World) (i : Interaction) (r : Run)
    (h : (decide (i.kind = InteractionKind.button) && startsWith i.customId "qclose:") = false) :
    qcloseBranch cfg w i r = r := by
  unfold qcloseBranch
  simp [h]

theorem qcloseClaimedBranch_skip (cfg : Config) (w : World) (i : Interaction) (r : Run)
    (h : (decide (i.kind = InteractionKind.button) &&
      startsWith i.customId "qclose_claimed:") = false) :
    qcloseClaimedBranch cfg w i r = r := by
  unfold qcloseClaimedBranch
  simp [h]

/-- A button whose identifier starts with `claim:` runs the claim block and no other. -/
theorem interactionBody_claim (cfg : Config) (w : World) (s : State) (i : Interaction)
    (hbutton : i.kind = InteractionKind.button) (hid : startsWith i.customId "claim:" = true) :
    interactionBody cfg w s i = claimBranch cfg w i (Run.mk s [] false Flow.next) := by
  obtain ⟨h1, h2, h3⟩ := startsWith_claim_only i.customId hid
  unfold interactionBody
  rw [Run.andThen_skip _ _ (fun r0 => qcloseClaimedBranch_skip cfg w i r0 (by simp [h3])),
    Run.andThen_skip _ _ (fun r0 => qcloseBranch_skip cfg w i r0 (by simp [h2])),
    Run.andThen_skip (Run.mk s [] false Flow.next) _
      (fun r0 => reqhelpBranch_skip w i r0 (by simp [h1])),
    Run.andThen_skip (Run.mk s [] false Flow.next) _
      (fun r0 => reqformBranch_skip cfg w i r0 (by simp [hbutton])),
    Run.andThen_next]

/-- A button whose identifier starts with `qclose:` runs the close block and no other. -/
theorem interactionBody_qclose (cfg : Config) (w : World) (s : State) (i : Interaction)
    (hbutton : i.kind = InteractionKind.button) (hid : startsWith i.customId "qclose:" = true) :
    interactionBody cfg w s i = qcloseBranch cfg w i (Run.mk s [] false Flow.next) := by
  obtain ⟨h1, h2, h3⟩ := startsWith_qclose_only i.customId hid
  unfold interactionBody
  rw [Run.andThen_skip _ _ (fun r0 => qcloseClaimedBranch_skip cfg w i r0 (by simp [h3])),
    Run.andThen_skip (Run.mk s [] false Flow.next) _
      (fun r0 => reqhelpBranch_skip w i r0 (by simp [h1])),
    Run.andThen_skip (Run.mk s [] false Flow.next) _
      (fun r0 => reqformBranch_skip cfg w i r0 (by simp [hbutton])),
    Run.andThen_skip (Run.mk s [] false Flow.next) _
      (fun r0 => claimBranch_skip cfg w i r0 (by simp [h2])),
    Run.andThen_next]

/-- A button whose identifier starts with `qclose_claimed:` runs the last block only. -/
theorem interactionBody_qclose_claimed (cfg : Config) (w : World) (s : State)
    (i : Interaction) (hbutton : i.kind = InteractionKind.button)
    (hid : startsWith i.customId "qclose_claimed:" = true) :
    interactionBody cfg w s i = qcloseClaimedBranch cfg w i (Run.mk s [] false Flow.next) := by
  obtain ⟨h1, h2, h3⟩ := startsWith_qclose_claimed_only i.customId hid
  unfold interactionBody
  rw [Run.andThen_skip (Run.mk s [] false Flow.next) _
      (fun r0 => reqhelpBranch_skip w i r0 (by simp [h1])),
    Run.andThen_skip (Run.mk s [] false Flow.next) _
      (fun r0 => reqformBranch_skip cfg w i r0 (by simp [hbutton])),
    Run.andThen_skip (Run.mk s [] false Flow.next) _
      (fun r0 => claimBranch_skip cfg w i r0 (by simp [h2])),
    Run.andThen_skip (Run.mk s [] false Flow.next) _
      (fun r0 => qcloseBranch_skip cfg w i r0 (by simp [h3])),
    Run.andThen_next]

/-- A submitted form whose identifier starts with `reqform:` runs the form block only. -/
theorem interactionBody_reqform (cfg : Config) (w : World) (s : State) (i : Interaction)
    (hmodal : i.kind = InteractionKind.modalSubmit) :
    interactionBody cfg w s i = reqformBranch cfg w i (Run.mk s [] false Flow.next) := by
  unfold interactionBody
  rw [Run.andThen_skip _ _ (fun r0 => qcloseClaimedBranch_skip cfg w i r0 (by simp [hmodal])),
    Run.andThen_skip _ _ (fun r0 => qcloseBranch_skip cfg w i r0 (by simp [hmodal])),
    Run.andThen_skip _ _ (fun r0 => claimBranch_skip cfg w i r0 (by simp [hmodal])),
    Run.andThen_skip (Run.mk s [] false Flow.next) _
      (fun r0 => reqhelpBranch_skip w i r0 (by simp [hmodal])),
    Run.andThen_next]

theorem hasStaffRole_false (cfg : Config) (member : Member)
    (hTA : cfg.TA_ROLE_ID ∉ member.roles) (hHead : cfg.HEAD_TA_ROLE_ID ∉ member.roles)
    (hInstructor : cfg.INSTRUCTOR_ROLE_ID ∉ member.roles) :
    hasStaffRole cfg member = false := by
  simp [hasStaffRole, hTA, hHead, hInstructor]

/-! ## C3: role gating -/

/-- C3, role gating.  A click on a claim, close-without-claim or close-after-claim button by a
member who holds none of the three staff roles is answered by one ephemeral rejection and
nothing else: the three stores are returned unchanged and the only call issued is that reply,
so there is no permission edit, no update of the queue post and no channel message. -/
theorem role_gating (cfg : Config) (w : World) (s : State) (i : Interaction)
    (hbutton : i.kind = InteractionKind.button)
    (hid : startsWith i.customId "claim:" = true ∨ startsWith i.customId "qclose:" = true ∨
      startsWith i.customId "qclose_claimed:" = true)
    (hTA : cfg.TA_ROLE_ID ∉ i.member.roles) (hHead : cfg.HEAD_TA_ROLE_ID ∉ i.member.roles)
    (hInstructor : cfg.INSTRUCTOR_ROLE_ID ∉ i.member.roles) :
    onInteractionCreate cfg w s i =
      ⟨s, [perform w (Call.reply
        (if startsWith i.customId "claim:" = true then ReplyContent.onlyStaffCanClaim
          else ReplyContent.onlyStaffCanClose) true)]⟩ := by
  have hrole := hasStaffRole_false cfg i.member hTA hHead hInstructor
  unfold onInteractionCreate
  rcases hid with h | h | h
  · rw [interactionBody_claim cfg w s i hbutton h]
    simp [claimBranch, hbutton, h, hrole, catchBlock]
  · rw [interactionBody_qclose cfg w s i hbutton h]
    simp [qcloseBranch, hbutton, h, hrole, catchBlock,
      (startsWith_qclose_only i.customId h).2.1]
  · rw [interactionBody_qclose_claimed cfg w s i hbutton h]
    simp [qcloseClaimedBranch, hbutton, h, hrole, catchBlock,
      (startsWith_qclose_claimed_only i.customId h).2.1]

/-- Worked example of C3: a student clicks the claim button of ticket `100`. -/
theorem role_gating_witness :
    onInteractionCreate sampleConfig sampleWorld
        (onChannelCreate sampleConfig sampleWorld State.empty sampleTicket).state
        (sampleClick "claim:100" (sampleMember "501" []))
      = ⟨(onChannelCreate sampleConfig sampleWorld State.empty sampleTicket).state,
          [⟨Call.reply ReplyContent.onlyStaffCanClaim true, true⟩]⟩ :=
  role_gating sampleConfig sampleWorld
    (onChannelCreate sampleConfig sampleWorld State.empty sampleTicket).state
    (sampleClick "claim:100" (sampleMember "501" [])) rfl (Or.inl (by decide))
    (by decide) (by decide) (by decide)

/-! ## C6: rejected submissions -/

theorem jsLength_jsTrim_le (text : String) : jsLength (jsTrim text) ≤ jsLength text := by
  unfold jsLength jsTrim
  simp only [List.map_reverse, List.sum_reverse]
  have h1 : List.Sublist ((text.data.dropWhile jsIsWhiteSpace).reverse.dropWhile jsIsWhiteSpace)
      (text.data.dropWhile jsIsWhiteSpace).reverse := List.dropWhile_sublist _
  have h2 : List.Sublist (text.data.dropWhile jsIsWhiteSpace) text.data :=
    List.dropWhile_sublist _
  have h3 := (h1.map utf16Units).sum_le_sum (fun a _ => Nat.zero_le a)
  have h4 := (h2.map utf16Units).sum_le_sum (fun a _ => Nat.zero_le a)
  rw [List.map_reverse, List.sum_reverse] at h3
  exact le_trans h3 h4

theorem jsLength_trimmedInput_le (value : Option String) :
    jsLength (trimmedInput value) ≤ jsLength (rawInput value) := by
  cases value with
  | none => simp [trimmedInput, rawInput]
  | some v => exact jsLength_jsTrim_le v

/-- C6, rejected submissions change nothing.  A submitted help-request form whose issue
summary is shorter than 20 characters, or whose attempt description is shorter than 30
characters (string length of JavaScript, measured on the text as typed or after trimming),
is answered by one ephemeral rejection and nothing else: no queue post is sent and
`queueMessages`, `ticketMetadata` and `cachedMessages` are returned unchanged. -/
theorem rejected_submission_changes_nothing (cfg : Config) (w : World) (s : State)
    (i : Interaction) (hmodal : i.kind = InteractionKind.modalSubmit)
    (hid : startsWith i.customId "reqform:" = true)
    (hshort : jsLength (rawInput i.issue) < 20 ∨ jsLength (trimmedInput i.issue) < 20 ∨
      jsLength (rawInput i.tried) < 30 ∨ jsLength (trimmedInput i.tried) < 30) :
    onInteractionCreate cfg w s i =
      ⟨s, [perform w (Call.reply ReplyContent.needMoreDetail true)]⟩ := by
  have h1 := jsLength_trimmedInput_le i.issue
  have h2 := jsLength_trimmedInput_le i.tried
  have hcode : jsLength (trimmedInput i.issue) < 20 ∨ jsLength (trimmedInput i.tried) < 30 := by
    omega
  unfold onInteractionCreate
  rw [interactionBody_reqform cfg w s i hmodal]
  unfold reqformBranch
  rcases hcode with h | h <;> simp [hmodal, hid, h, catchBlock]

/-- Worked example of C6: a form with a nine-character issue summary. -/
theorem rejected_submission_changes_nothing_witness :
    onInteractionCreate sampleConfig sampleWorld State.empty
        (sampleSubmission "too short" "I read the handout and tried the first two steps")
      = ⟨State.empty, [⟨Call.reply ReplyContent.needMoreDetail true, true⟩]⟩ :=
  rejected_submission_changes_nothing sampleConfig sampleWorld State.empty
    (sampleSubmission "too short" "I read the handout and tried the first two steps") rfl
    (by decide) (Or.inl (by decide))

/-! ## C7: the submission guard -/

/-- C7 as stated fails: a form whose issue summary is twenty spaces has an issue-summary
length of 20 and an attempt description of 48 characters, yet the handler rejects it (the
length test of line 556 is applied after `trim`), although every fetch and call would have
succeeded; no entry is tracked for ticket `100`. -/
theorem submission_guard_counterexample :
    20 ≤ jsLength (rawInput paddedSubmission.issue) ∧
    30 ≤ jsLength (rawInput paddedSubmission.tried) ∧
    onInteractionCreate sampleConfig sampleWorld State.empty paddedSubmission
      = ⟨State.empty, [⟨Call.reply ReplyContent.needMoreDetail true, true⟩]⟩ ∧
    JsMap.get
      (onInteractionCreate sampleConfig sampleWorld State.empty paddedSubmission).state.queueMessages
      "100" = none := by
  decide

/-- C7, amended.  A submitted help-request form whose issue summary has at least 20
characters and whose attempt description has at least 30 characters, both measured after
trimming surrounding white space, passes validation; when the ticket channel and the queue
channel can be fetched and the queue post is sent successfully, the post carries the enabled
controls `claim:<id>` and `qclose:<id>` and `queueMessages` maps the ticket id to the id of
the new queue message, the other stores being unchanged. -/
theorem submission_guard (cfg : Config) (w : World) (s : State) (i : Interaction)
    (ticketChannel queueChannel : Channel)
    (hmodal : i.kind = InteractionKind.modalSubmit)
    (hid : startsWith i.customId "reqform:" = true)
    (hissue : 20 ≤ jsLength (trimmedInput i.issue))
    (htried : 30 ≤ jsLength (trimmedInput i.tried))
    (hticket : w.fetchChannel (idField i.customId) = some ticketChannel)
    (hqueue : w.fetchChannel cfg.QUEUE_CHANNEL_ID = some queueChannel)
    (hsent : ∀ q r e b, w.ok (Call.queueSend q r e b) = true) :
    (onInteractionCreate cfg w s i).state =
        { s with
          queueMessages := JsMap.set s.queueMessages (idField i.customId) w.newMessageId } ∧
      JsMap.get (onInteractionCreate cfg w s i).state.queueMessages (idField i.customId)
        = some w.newMessageId ∧
      (∃ embed,
        (onInteractionCreate cfg w s i).effects =
          [⟨Call.queueSend queueChannel.id
              [cfg.TA_ROLE_ID, cfg.HEAD_TA_ROLE_ID, cfg.INSTRUCTOR_ROLE_ID] embed
              [⟨"claim:" ++ idField i.customId, false⟩,
                ⟨"qclose:" ++ idField i.customId, false⟩], true⟩,
            perform w (Call.reply ReplyContent.requestSent true)] ++
          (if w.ok (Call.reply ReplyContent.requestSent true) = true then []
            else [perform w (Call.reply ReplyContent.errorOccurred true)])) := by
  have hstate : (onInteractionCreate cfg w s i).state =
      { s with
        queueMessages := JsMap.set s.queueMessages (idField i.customId) w.newMessageId } := by
    unfold onInteractionCreate
    rw [interactionBody_reqform cfg w s i hmodal, catchBlock_state]
    unfold reqformBranch
    simp only [hmodal, hid, hticket, hqueue, perform, hsent]
    have h1 : ¬ jsLength (trimmedInput i.issue) < 20 := by omega
    have h2 : ¬ jsLength (trimmedInput i.tried) < 30 := by omega
    simp only [h1, h2]
    by_cases hc : w.ok (Call.reply ReplyContent.requestSent true) = true <;> simp [hc]
  refine ⟨hstate, ?_, ?_⟩
  · rw [hstate]
    exact JsMap.get_set_self _ _ _
  · unfold onInteractionCreate
    rw [interactionBody_reqform cfg w s i hmodal]
    unfold reqformBranch
    simp only [hmodal, hid, hticket, hqueue, perform, hsent]
    have h1 : ¬ jsLength (trimmedInput i.issue) < 20 := by omega
    have h2 : ¬ jsLength (trimmedInput i.tried) < 30 := by omega
    simp only [h1, h2]
    by_cases hc : w.ok (Call.reply ReplyContent.requestSent true) = true <;>
      simp [hc, catchBlock, perform]

/-- Worked example of C7 (amended): a form with a 25-character issue summary and a
48-character attempt description becomes the tracked entry of ticket `100`. -/
theorem submission_guard_witness :
    JsMap.get
      (onInteractionCreate sampleConfig sampleWorld State.empty validSubmission).state.queueMessages
      "100" = some "700" :=
  (submission_guard sampleConfig sampleWorld State.empty validSubmission sampleTicket
    (sampleChannel "900" none) rfl (by decide) (by decide) (by decide) (by decide) (by decide)
    (fun _ _ _ _ => rfl)).2.1

/-! ## The claim and close blocks for staff -/

theorem recordClaimant_get_self (s : State) (channelId tag : String) :
    JsMap.get (recordClaimant s channelId tag).ticketMetadata channelId =
      (JsMap.get s.ticketMetadata channelId).map
        (fun md => { md with claimedBy := appendIfAbsent md.claimedBy tag }) := by
  unfold recordClaimant appendIfAbsent
  cases hget : JsMap.get s.ticketMetadata channelId with
  | none => simp [hget]
  | some md =>
    by_cases hmem : tag ∈ md.claimedBy
    · simp [hmem, hget]
    · simp [hmem, JsMap.get_set_self]

theorem recordClaimant_get_other (s : State) (channelId tag c : String) (h : channelId ≠ c) :
    JsMap.get (recordClaimant s channelId tag).ticketMetadata c =
      JsMap.get s.ticketMetadata c := by
  unfold recordClaimant
  repeat' split
  all_goals first | rfl | exact JsMap.get_set_ne _ _ _ _ h

/-- A staff claim whose channel fetch succeeds records the claimant, whatever happens to the
calls that follow. -/
theorem claim_staff_state (cfg : Config) (w : World) (s : State) (i : Interaction)
    (ticketChannel : Channel) (hbutton : i.kind = InteractionKind.button)
    (hid : startsWith i.customId "claim:" = true) (hstaff : hasStaffRole cfg i.member = true)
    (hfetch : w.fetchChannel (idField i.customId) = some ticketChannel) :
    (onInteractionCreate cfg w s i).state =
      recordClaimant s (idField i.customId) i.member.userTag := by
  unfold onInteractionCreate
  rw [catchBlock_state, interactionBody_claim cfg w s i hbutton hid]
  unfold claimBranch
  simp only [hbutton, hid, hstaff, hfetch]
  simp only [decide_True, Bool.and_self, if_true, Bool.not_true, Bool.false_eq_true, if_false]
  repeat' split
  all_goals rfl

/-- A staff claim all of whose calls succeed issues the permission edit, the update of the
queue post and the message in the ticket channel. -/
theorem claim_staff_effects (cfg : Config) (w : World) (s : State) (i : Interaction)
    (ticketChannel : Channel) (hbutton : i.kind = InteractionKind.button)
    (hid : startsWith i.customId "claim:" = true) (hstaff : hasStaffRole cfg i.member = true)
    (hfetch : w.fetchChannel (idField i.customId) = some ticketChannel)
    (hok : ∀ c, w.ok c = true) :
    (onInteractionCreate cfg w s i).effects =
      (claimCalls i ticketChannel w.now).map (fun c => ⟨c, true⟩) := by
  unfold onInteractionCreate
  rw [interactionBody_claim cfg w s i hbutton hid]
  unfold claimBranch
  simp [hbutton, hid, hstaff, hfetch, perform, hok, catchBlock, claimCalls]

/-- A staff click on a close button whose update succeeds rewrites the queue post with two
disabled controls and touches no store. -/
theorem close_staff (cfg : Config) (w : World) (s : State) (i : Interaction)
    (hbutton : i.kind = InteractionKind.button)
    (hid : startsWith i.customId "qclose:" = true ∨
      startsWith i.customId "qclose_claimed:" = true)
    (hstaff : hasStaffRole cfg i.member = true)
    (hok : ∀ m f b, w.ok (Call.update m f b) = true) :
    onInteractionCreate cfg w s i =
      ⟨s, [⟨Call.update i.messageId
          (if startsWith i.customId "qclose:" = true then
            Footer.closedWithoutJoining i.member.displayName
            else Footer.dismissedBy i.member.displayName)
          [⟨"claim_disabled", true⟩, ⟨"close_disabled", true⟩], true⟩]⟩ := by
  unfold onInteractionCreate
  rcases hid with h | h
  · rw [interactionBody_qclose cfg w s i hbutton h]
    simp [qcloseBranch, hbutton, h, hstaff, catchBlock, perform, hok]
  · rw [interactionBody_qclose_claimed cfg w s i hbutton h]
    simp [qcloseClaimedBranch, hbutton, h, hstaff, catchBlock, perform, hok,
      (startsWith_qclose_claimed_only i.customId h).2.2]

/-- An interaction that carries the identifier of a disabled control matches no block. -/
theorem disabled_control_inert (cfg : Config) (w : World) (s : State) (i : Interaction)
    (hid : i.customId = "claimed_disabled" ∨ i.customId = "claim_disabled" ∨
      i.customId = "close_disabled") :
    onInteractionCreate cfg w s i = ⟨s, []⟩ := by
  have h : startsWith i.customId "reqhelp:" = false ∧ startsWith i.customId "reqform:" = false ∧
      startsWith i.customId "claim:" = false ∧ startsWith i.customId "qclose:" = false ∧
      startsWith i.customId "qclose_claimed:" = false := by
    rcases hid with h | h | h <;> rw [h] <;> decide
  obtain ⟨h1, h2, h3, h4, h5⟩ := h
  unfold onInteractionCreate interactionBody
  rw [Run.andThen_skip _ _ (fun r0 => qcloseClaimedBranch_skip cfg w i r0 (by simp [h5])),
    Run.andThen_skip _ _ (fun r0 => qcloseBranch_skip cfg w i r0 (by simp [h4])),
    Run.andThen_skip _ _ (fun r0 => claimBranch_skip cfg w i r0 (by simp [h3])),
    Run.andThen_skip _ _ (fun r0 => reqformBranch_skip cfg w i r0 (by simp [h2])),
    Run.andThen_skip _ _ (fun r0 => reqhelpBranch_skip w i r0 (by simp [h1]))]
  rfl

/-! ## C4: terminal queue entries -/

/-- C4 as stated fails.  In `pendingState` the staff member `601` closes the request of ticket
`100` without claiming (the entry becomes ClosedUnclaimed); a later click by the staff member
`602` that still carries `claim:100` is handled as a claim: the entry shows Claimed, the
`claimedBy` list goes from empty to one tag, and a permission edit, an update of the queue
post and a channel message are issued. -/
theorem queue_terminality_counterexample :
    statusAfter "700" EntryStatus.Pending
        (onInteractionCreate sampleConfig sampleWorld pendingState
          (sampleClick "qclose:100" (sampleMember "601" ["31"]))).effects
      = EntryStatus.ClosedUnclaimed ∧
    claimedByOf
        (onInteractionCreate sampleConfig sampleWorld pendingState
          (sampleClick "qclose:100" (sampleMember "601" ["31"]))).state "100"
      = some [] ∧
    claimedByOf
        (onInteractionCreate sampleConfig sampleWorld
          (onInteractionCreate sampleConfig sampleWorld pendingState
            (sampleClick "qclose:100" (sampleMember "601" ["31"]))).state
          (sampleClick "claim:100" (sampleMember "602" ["32"]))).state "100"
      = some ["user602"] ∧
    statusAfter "700" EntryStatus.ClosedUnclaimed
        (onInteractionCreate sampleConfig sampleWorld
          (onInteractionCreate sampleConfig sampleWorld pendingState
            (sampleClick "qclose:100" (sampleMember "601" ["31"]))).state
          (sampleClick "claim:100" (sampleMember "602" ["32"]))).effects
      = EntryStatus.Claimed ∧
    (onInteractionCreate sampleConfig sampleWorld
        (onInteractionCreate sampleConfig sampleWorld pendingState
          (sampleClick "qclose:100" (sampleMember "601" ["31"]))).state
        (sampleClick "claim:100" (sampleMember "602" ["32"]))).effects
      = [⟨Call.permissionsEdit "100" "602", true⟩,
          ⟨Call.update "700" (Footer.claimedBy "User 602" 7)
            [⟨"claimed_disabled", true⟩, ⟨"qclose_claimed:100", false⟩], true⟩,
          ⟨Call.sendJoined "100" "602", true⟩] := by
  decide

/-- C4, amended.  When a staff click on a close button (`qclose:` or `qclose_claimed:`) has
been handled and its update succeeded, the entry shows ClosedUnclaimed or ClosedAfterClaim,
the stores are untouched and the queue post carries only the disabled controls
`claim_disabled` and `close_disabled`; every later interaction that carries one of these two
identifiers leaves the three stores (hence every `claimedBy` list) and the status of the entry
unchanged and issues no call.  An interaction that still carries `claim:<ticketId>` is not
covered. -/
theorem queue_terminality (cfg : Config) (w1 w2 : World) (s : State) (i1 i2 : Interaction)
    (before : EntryStatus)
    (hbutton : i1.kind = InteractionKind.button)
    (hclose : startsWith i1.customId "qclose:" = true ∨
      startsWith i1.customId "qclose_claimed:" = true)
    (hstaff : hasStaffRole cfg i1.member = true)
    (hupdated : ∀ m f b, w1.ok (Call.update m f b) = true)
    (hlater : i2.customId = "claim_disabled" ∨ i2.customId = "close_disabled") :
    (onInteractionCreate cfg w1 s i1).state = s ∧
      (∃ footer,
        (onInteractionCreate cfg w1 s i1).effects =
          [⟨Call.update i1.messageId footer
            [⟨"claim_disabled", true⟩, ⟨"close_disabled", true⟩], true⟩]) ∧
      (statusAfter i1.messageId before (onInteractionCreate cfg w1 s i1).effects
          = EntryStatus.ClosedUnclaimed ∨
        statusAfter i1.messageId before (onInteractionCreate cfg w1 s i1).effects
          = EntryStatus.ClosedAfterClaim) ∧
      onInteractionCreate cfg w2 (onInteractionCreate cfg w1 s i1).state i2 = ⟨s, []⟩ ∧
      statusAfter i1.messageId
          (statusAfter i1.messageId before (onInteractionCreate cfg w1 s i1).effects)
          (onInteractionCreate cfg w2 (onInteractionCreate cfg w1 s i1).state i2).effects
        = statusAfter i1.messageId before (onInteractionCreate cfg w1 s i1).effects := by
  have h1 := close_staff cfg w1 s i1 hbutton hclose hstaff hupdated
  have h2 : onInteractionCreate cfg w2 s i2 = ⟨s, []⟩ :=
    disabled_control_inert cfg w2 s i2 (by tauto)
  rw [h1]
  refine ⟨rfl, ⟨_, rfl⟩, ?_, h2, ?_⟩
  · by_cases hq : startsWith i1.customId "qclose:" = true <;>
      simp [hq, statusAfter, Footer.status]
  · rw [h2]
    rfl

/-- Worked example of C4 (amended): after the staff member `601` closed the request of
ticket `100`, a click that carries `claim_disabled` changes nothing. -/
theorem queue_terminality_witness :
    onInteractionCreate sampleConfig sampleWorld
        (onInteractionCreate sampleConfig sampleWorld pendingState
          (sampleClick "qclose:100" (sampleMember "601" ["31"]))).state
        (sampleClick "claim_disabled" (sampleMember "602" ["32"]))
      = ⟨pendingState, []⟩ :=
  (queue_terminality sampleConfig sampleWorld sampleWorld pendingState
    (sampleClick "qclose:100" (sampleMember "601" ["31"]))
    (sampleClick "claim_disabled" (sampleMember "602" ["32"])) EntryStatus.Pending rfl
    (Or.inl (by decide)) (by decide) (fun _ _ _ => rfl) (Or.inl rfl)).2.2.2.1

/-! ## C5: two claims on one entry -/

/-- C5 as stated fails.  In `pendingState` the staff members `601` and `602` both click the
claim button `claim:100` of the Pending entry.  Both clicks are handled as claims: each
issues its permission edit, its update of the queue post to Claimed and its channel message,
the second click is not rejected, and two claimants are recorded. -/
theorem claim_race_counterexample :
    claimedByOf pendingState "100" = some [] ∧
    (onInteractionCreate sampleConfig sampleWorld pendingState
        (sampleClick "claim:100" (sampleMember "601" ["31"]))).effects
      = [⟨Call.permissionsEdit "100" "601", true⟩,
          ⟨Call.update "700" (Footer.claimedBy "User 601" 7)
            [⟨"claimed_disabled", true⟩, ⟨"qclose_claimed:100", false⟩], true⟩,
          ⟨Call.sendJoined "100" "601", true⟩] ∧
    (onInteractionCreate sampleConfig sampleWorld
        (onInteractionCreate sampleConfig sampleWorld pendingState
          (sampleClick "claim:100" (sampleMember "601" ["31"]))).state
        (sampleClick "claim:100" (sampleMember "602" ["32"]))).effects
      = [⟨Call.permissionsEdit "100" "602", true⟩,
          ⟨Call.update "700" (Footer.claimedBy "User 602" 7)
            [⟨"claimed_disabled", true⟩, ⟨"qclose_claimed:100", false⟩], true⟩,
          ⟨Call.sendJoined "100" "602", true⟩] ∧
    claimedByOf
        (onInteractionCreate sampleConfig sampleWorld
          (onInteractionCreate sampleConfig sampleWorld pendingState
            (sampleClick "claim:100" (sampleMember "601" ["31"]))).state
          (sampleClick "claim:100" (sampleMember "602" ["32"]))).state "100"
      = some ["user601", "user602"] := by
  decide

/-- C5, amended.  For every entry whose ticket session exists and every two claim clicks on
it by two staff members, handled one after the other with the ticket channel fetched both
times, both clicks are carried out as claims: the session's `claimedBy` list receives the tag
of the first and then the tag of the second member (each unless already present), so two new
claimants are recorded when neither was there before, and when the calls succeed each click
issues its own permission edit, update of the queue post to Claimed and channel message.
Neither click is rejected. -/
theorem claim_race (cfg : Config) (w1 w2 : World) (s : State) (i1 i2 : Interaction)
    (md : Metadata) (channel1 channel2 : Channel)
    (hbutton1 : i1.kind = InteractionKind.button) (hbutton2 : i2.kind = InteractionKind.button)
    (hid : startsWith i1.customId "claim:" = true) (hsame : i2.customId = i1.customId)
    (hstaff1 : hasStaffRole cfg i1.member = true) (hstaff2 : hasStaffRole cfg i2.member = true)
    (hsession : JsMap.get s.ticketMetadata (idField i1.customId) = some md)
    (hfetch1 : w1.fetchChannel (idField i1.customId) = some channel1)
    (hfetch2 : w2.fetchChannel (idField i1.customId) = some channel2) :
    claimedByOf (onInteractionCreate cfg w2 (onInteractionCreate cfg w1 s i1).state i2).state
        (idField i1.customId)
      = some (appendIfAbsent (appendIfAbsent md.claimedBy i1.member.userTag)
          i2.member.userTag) ∧
    (i1.member.userTag ≠ i2.member.userTag → i1.member.userTag ∉ md.claimedBy →
      i2.member.userTag ∉ md.claimedBy →
      claimedByOf (onInteractionCreate cfg w2 (onInteractionCreate cfg w1 s i1).state i2).state
          (idField i1.customId)
        = some (md.claimedBy ++ [i1.member.userTag, i2.member.userTag])) ∧
    ((∀ c, w1.ok c = true) →
      (onInteractionCreate cfg w1 s i1).effects =
        (claimCalls i1 channel1 w1.now).map (fun c => ⟨c, true⟩)) ∧
    ((∀ c, w2.ok c = true) →
      (onInteractionCreate cfg w2 (onInteractionCreate cfg w1 s i1).state i2).effects =
        (claimCalls i2 channel2 w2.now).map (fun c => ⟨c, true⟩)) := by
  have hid2 : startsWith i2.customId "claim:" = true := by rw [hsame]; exact hid
  have hf2 : w2.fetchChannel (idField i2.customId) = some channel2 := by
    rw [hsame]; exact hfetch2
  have hs1 := claim_staff_state cfg w1 s i1 channel1 hbutton1 hid hstaff1 hfetch1
  have hs2 := claim_staff_state cfg w2 (onInteractionCreate cfg w1 s i1).state i2 channel2
    hbutton2 hid2 hstaff2 hf2
  have hlist : claimedByOf
      (onInteractionCreate cfg w2 (onInteractionCreate cfg w1 s i1).state i2).state
        (idField i1.customId)
      = some (appendIfAbsent (appendIfAbsent md.claimedBy i1.member.userTag)
          i2.member.userTag) := by
    unfold claimedByOf
    rw [hs2, hsame, recordClaimant_get_self, hs1, recordClaimant_get_self, hsession]
    rfl
  refine ⟨hlist, ?_, ?_, ?_⟩
  · intro hne h1 h2
    rw [hlist]
    have h3 : i2.member.userTag ∉ md.claimedBy ++ [i1.member.userTag] := by
      simp [h2, Ne.symm hne]
    simp [appendIfAbsent, h1, h3]
  · intro hok
    exact claim_staff_effects cfg w1 s i1 channel1 hbutton1 hid hstaff1 hfetch1 hok
  · intro hok
    exact claim_staff_effects cfg w2 _ i2 channel2 hbutton2 hid2 hstaff2 hf2 hok

/-- Worked example of C5 (amended): the two claims of the staff members `601` and `602` on
the Pending entry of ticket `100` record both claimants, in the order of handling. -/
theorem claim_race_witness :
    claimedByOf
        (onInteractionCreate sampleConfig sampleWorld
          (onInteractionCreate sampleConfig sampleWorld pendingState
            (sampleClick "claim:100" (sampleMember "601" ["31"]))).state
          (sampleClick "claim:100" (sampleMember "602" ["32"]))).state "100"
      = some ["user601", "user602"] :=
  (claim_race sampleConfig sampleWorld sampleWorld pendingState
    (sampleClick "claim:100" (sampleMember "601" ["31"]))
    (sampleClick "claim:100" (sampleMember "602" ["32"]))
    ⟨7, some "user501", []⟩ sampleTicket sampleTicket rfl rfl (by decide) rfl (by decide)
    (by decide) (by decide) (by decide) (by decide)).2.1 (by decide) (by decide) (by decide)

/-! ## The session metadata under each handler -/

theorem Run.andThen_ticketMetadata (r : Run) (f : Run → Run)
    (hf : ∀ r0 : Run, (f r0).state.ticketMetadata = r0.state.ticketMetadata) :
    (r.andThen f).state.ticketMetadata = r.state.ticketMetadata := by
  unfold Run.andThen
  split
  · exact hf r
  · rfl

theorem reqhelpBranch_ticketMetadata (w : World) (i : Interaction) (r : Run) :
    (reqhelpBranch w i r).state.ticketMetadata = r.state.ticketMetadata := by
  unfold reqhelpBranch
  split <;> rfl

theorem reqformBranch_ticketMetadata (cfg : Config) (w : World) (i : Interaction) (r : Run) :
    (reqformBranch cfg w i r).state.ticketMetadata = r.state.ticketMetadata := by
  unfold reqformBranch
  try dsimp only
  repeat' split
  all_goals rfl

theorem qcloseBranch_state (cfg : Config) (w : World) (i : Interaction) (r : Run) :
    (qcloseBranch cfg w i r).state = r.state := by
  unfold qcloseBranch
  try dsimp only
  repeat' split
  all_goals rfl

theorem qcloseClaimedBranch_state (cfg : Config) (w : World) (i : Interaction) (r : Run) :
    (qcloseClaimedBranch cfg w i r).state = r.state := by
  unfold qcloseClaimedBranch
  try dsimp only
  repeat' split
  all_goals rfl

theorem claimBranch_state (cfg : Config) (w : World) (i : Interaction) (r : Run) :
    (claimBranch cfg w i r).state = r.state ∨
      (claimBranch cfg w i r).state =
        recordClaimant r.state (idField i.customId) i.member.userTag := by
  unfold claimBranch
  try dsimp only
  repeat' split
  all_goals first | exact Or.inl rfl | exact Or.inr rfl

/-- An interaction leaves `ticketMetadata` alone or records the acting member as claimant of
the session named by the control identifier. -/
theorem onInteractionCreate_ticketMetadata (cfg : Config) (w : World) (s : State)
    (i : Interaction) :
    (onInteractionCreate cfg w s i).state.ticketMetadata = s.ticketMetadata ∨
      (onInteractionCreate cfg w s i).state.ticketMetadata =
        (recordClaimant s (idField i.customId) i.member.userTag).ticketMetadata := by
  by_cases h : (decide (i.kind = InteractionKind.button) && startsWith i.customId "claim:") = true
  · have hbutton : i.kind = InteractionKind.button := by
      simp only [Bool.and_eq_true, decide_eq_true_eq] at h
      exact h.1
    have hid : startsWith i.customId "claim:" = true := by
      simp only [Bool.and_eq_true] at h
      exact h.2
    unfold onInteractionCreate
    rw [catchBlock_state, interactionBody_claim cfg w s i hbutton hid]
    rcases claimBranch_state cfg w i (Run.mk s [] false Flow.next) with h1 | h1
    · left
      rw [h1]
    · right
      rw [h1]
  · left
    have hskip : ∀ r0 : Run, claimBranch cfg w i r0 = r0 :=
      fun r0 => claimBranch_skip cfg w i r0 (by simpa using h)
    unfold onInteractionCreate interactionBody
    rw [catchBlock_state,
      Run.andThen_ticketMetadata _ _
        (fun r0 => by rw [qcloseClaimedBranch_state cfg w i r0]),
      Run.andThen_ticketMetadata _ _ (fun r0 => by rw [qcloseBranch_state cfg w i r0]),
      Run.andThen_skip _ _ hskip,
      Run.andThen_ticketMetadata _ _ (reqformBranch_ticketMetadata cfg w i),
      Run.andThen_ticketMetadata _ _ (reqhelpBranch_ticketMetadata w i)]

/-- How one event changes the metadata stored for channel id `c`: not at all, by closing the
session, by opening a fresh one, or by appending one new claimant. -/
theorem step_metadata (host : Host) (cfg : Config) (s : State) (e : Event) (c : String) :
    JsMap.get (step host cfg s e).state.ticketMetadata c = JsMap.get s.ticketMetadata c ∨
      (closesSession c e = true ∧ JsMap.get (step host cfg s e).state.ticketMetadata c = none) ∨
      (opensSession c e = true ∧
        ∃ t o, JsMap.get (step host cfg s e).state.ticketMetadata c = some ⟨t, o, []⟩) ∨
      (∃ md tag, JsMap.get s.ticketMetadata c = some md ∧ tag ∉ md.claimedBy ∧
        JsMap.get (step host cfg s e).state.ticketMetadata c
          = some { md with claimedBy := md.claimedBy ++ [tag] }) := by
  cases e with
  | messageCreate m =>
    left
    simp only [step, onMessageCreate]
    repeat' split
    all_goals rfl
  | interactionCreate w i =>
    simp only [step]
    rcases onInteractionCreate_ticketMetadata cfg w s i with h | h
    · left
      rw [h]
    · rw [h]
      by_cases hc : idField i.customId = c
      · subst hc
        rw [recordClaimant_get_self]
        cases hget : JsMap.get s.ticketMetadata (idField i.customId) with
        | none => left; rfl
        | some md =>
          by_cases hmem : i.member.userTag ∈ md.claimedBy
          · left
            simp [appendIfAbsent, hmem]
          · right; right; right
            exact ⟨md, i.member.userTag, rfl, hmem, by simp [appendIfAbsent, hmem]⟩
      · left
        exact recordClaimant_get_other s _ _ c hc
  | channelCreate w channel =>
    simp only [step]
    by_cases hc : channel.id = c
    · by_cases ht : isTicketChannel cfg (some channel) = true
      · right; right; left
        refine ⟨by simp [opensSession, hc], ?_⟩
        subst hc
        unfold onChannelCreate
        simp only [ht, Bool.not_true, Bool.false_eq_true, if_false, JsMap.get_set_self]
        cases firstHumanMember w channel.permissionOverwrites with
        | none =>
          refine ⟨w.now, none, ?_⟩
          split <;> simp [JsMap.get_set_self]
        | some member =>
          refine ⟨w.now, some member.userTag, ?_⟩
          split <;> simp [JsMap.get_set_self]
      · left
        unfold onChannelCreate
        simp [ht]
    · left
      unfold onChannelCreate
      try dsimp only
      repeat' split
      all_goals first | rfl | simp only [JsMap.get_set_ne _ _ _ _ hc]
  | channelDelete w channel =>
    simp only [step]
    by_cases hc : channel.id = c
    · have hcases : (onChannelDelete host cfg w s channel).state.ticketMetadata
          = s.ticketMetadata ∨
          (onChannelDelete host cfg w s channel).state.ticketMetadata
            = JsMap.delete s.ticketMetadata channel.id := by
        unfold onChannelDelete channelDeleteRun
        try dsimp only
        repeat' split
        all_goals first
          | exact Or.inl rfl
          | exact Or.inl (closeQueuePost_ticketMetadata cfg w s channel)
          | exact Or.inr (by simp only [closeQueuePost_ticketMetadata])
      rcases hcases with h | h
      · left
        rw [h]
      · right; left
        refine ⟨by simp [closesSession, hc], ?_⟩
        rw [h, ← hc]
        exact JsMap.get_delete_self _ _
    · left
      unfold onChannelDelete channelDeleteRun
      try dsimp only
      repeat' split
      all_goals first
        | rfl
        | simp only [closeQueuePost_ticketMetadata, JsMap.get_delete_ne _ _ _ hc]

/-! ## C8: the claimant list -/

theorem recordClaimant_idem (s : State) (channelId tag : String) :
    recordClaimant (recordClaimant s channelId tag) channelId tag =
      recordClaimant s channelId tag := by
  cases hget : JsMap.get s.ticketMetadata channelId with
  | none => simp [recordClaimant, hget]
  | some md =>
    by_cases hmem : tag ∈ md.claimedBy
    · simp [recordClaimant, hget, hmem]
    · have h1 : recordClaimant s channelId tag =
          { s with
            ticketMetadata :=
              JsMap.set s.ticketMetadata channelId
                { md with claimedBy := md.claimedBy ++ [tag] } } := by
        simp [recordClaimant, hget, hmem]
      rw [h1]
      simp [recordClaimant, JsMap.get_set_self]

theorem run_nodup (host : Host) (cfg : Config) (evs : List Event) :
    ∀ s : State,
      (∀ c md, JsMap.get s.ticketMetadata c = some md → md.claimedBy.Nodup) →
      ∀ c md, JsMap.get (run host cfg s evs).state.ticketMetadata c = some md →
        md.claimedBy.Nodup := by
  induction evs with
  | nil =>
    intro s hs c md h
    exact hs c md h
  | cons e es ih =>
    intro s hs c md h
    refine ih (step host cfg s e).state ?_ c md h
    intro c0 md0 h0
    rcases step_metadata host cfg s e c0 with h1 | ⟨_, h1⟩ | ⟨_, t, o, h1⟩ | ⟨md1, tag, h1, h2, h3⟩
    · rw [h1] at h0
      exact hs c0 md0 h0
    · rw [h1] at h0
      cases h0
    · rw [h1] at h0
      cases h0
      exact List.nodup_nil
    · rw [h3] at h0
      cases h0
      have := hs c0 md1 h1
      exact List.Nodup.append this (List.nodup_singleton tag) (by simpa using h2)

/-- C8, claimant set semantics.  (1) After every sequence of events from the empty stores no
`claimedBy` list contains a duplicate.  (2) An event that neither opens nor closes the
session of a channel keeps the session and its `claimedBy` list as a leading part of the new
list, so nothing is removed or reordered.  (3) A staff claim whose channel fetch succeeds, on
an existing session, appends the tag of the member at the end when it is absent and leaves
the list unchanged when it is present.  (4) Claiming twice by the same member leaves the
stores as claiming once. -/
theorem claimant_set_semantics (host : Host) (cfg : Config) :
    (∀ (evs : List Event) (c : String) (md : Metadata),
      JsMap.get (run host cfg State.empty evs).state.ticketMetadata c = some md →
        md.claimedBy.Nodup) ∧
    (∀ (s : State) (e : Event) (c : String) (md : Metadata),
      JsMap.get s.ticketMetadata c = some md → opensSession c e = false →
        closesSession c e = false →
        ∃ md', JsMap.get (step host cfg s e).state.ticketMetadata c = some md' ∧
          md.claimedBy <+: md'.claimedBy ∧
          md'.claimedBy.length ≤ md.claimedBy.length + 1) ∧
    (∀ (w : World) (s : State) (i : Interaction) (channel : Channel) (md : Metadata),
      i.kind = InteractionKind.button → startsWith i.customId "claim:" = true →
        hasStaffRole cfg i.member = true →
        w.fetchChannel (idField i.customId) = some channel →
        JsMap.get s.ticketMetadata (idField i.customId) = some md →
        claimedByOf (onInteractionCreate cfg w s i).state (idField i.customId)
          = some (if i.member.userTag ∈ md.claimedBy then md.claimedBy
              else md.claimedBy ++ [i.member.userTag])) ∧
    (∀ (w1 w2 : World) (s : State) (i : Interaction) (channel1 channel2 : Channel),
      i.kind = InteractionKind.button → startsWith i.customId "claim:" = true →
        hasStaffRole cfg i.member = true →
        w1.fetchChannel (idField i.customId) = some channel1 →
        w2.fetchChannel (idField i.customId) = some channel2 →
        (onInteractionCreate cfg w2 (onInteractionCreate cfg w1 s i).state i).state
          = (onInteractionCreate cfg w1 s i).state) := by
  refine ⟨?_, ?_, ?_, ?_⟩
  · intro evs c md h
    exact run_nodup host cfg evs State.empty (by intro c0 md0 h0; cases h0) c md h
  · intro s e c md hget hopen hclose
    rcases step_metadata host cfg s e c with h1 | ⟨h0, _⟩ | ⟨h0, _⟩ | ⟨md1, tag, h1, _, h3⟩
    · exact ⟨md, by rw [h1, hget], List.prefix_refl _, Nat.le_succ _⟩
    · rw [hclose] at h0
      cases h0
    · rw [hopen] at h0
      cases h0
    · rw [hget] at h1
      cases h1
      exact ⟨_, h3, List.prefix_append _ _, by simp⟩
  · intro w s i channel md hbutton hid hstaff hfetch hget
    unfold claimedByOf
    rw [claim_staff_state cfg w s i channel hbutton hid hstaff hfetch, recordClaimant_get_self,
      hget]
    rfl
  · intro w1 w2 s i channel1 channel2 hbutton hid hstaff hfetch1 hfetch2
    rw [claim_staff_state cfg w2 _ i channel2 hbutton hid hstaff hfetch2,
      claim_staff_state cfg w1 s i channel1 hbutton hid hstaff hfetch1]
    exact recordClaimant_idem s _ _

/-- Worked example of C8: the staff member `601` claims the request of ticket `100` twice;
the tag is recorded once. -/
theorem claimant_set_semantics_witness :
    claimedByOf
        (onInteractionCreate sampleConfig sampleWorld
          (onInteractionCreate sampleConfig sampleWorld pendingState
            (sampleClick "claim:100" (sampleMember "601" ["31"]))).state
          (sampleClick "claim:100" (sampleMember "601" ["31"]))).state "100"
      = some ["user601"] := by
  have h := (claimant_set_semantics sampleHost sampleConfig).2.2.2 sampleWorld sampleWorld
    pendingState (sampleClick "claim:100" (sampleMember "601" ["31"])) sampleTicket sampleTicket
    rfl (by decide) (by decide) (by decide) (by decide)
  rw [h]
  decide

/-! ## The calls of a closing ticket -/

theorem closeQueuePost_effects (cfg : Config) (w : World) (s : State) (channel : Channel) :
    (closeQueuePost cfg w s channel).2 = [] ∨
      ∃ m f b, (closeQueuePost cfg w s channel).2 = [perform w (Call.queueEdit m f b)] := by
  unfold closeQueuePost
  try dsimp only
  repeat' split
  all_goals first | exact Or.inl rfl | exact Or.inr ⟨_, _, _, rfl⟩

theorem uploadToGist_effects (cfg : Config) (w : World) (htmlContent filename : String) :
    (uploadToGist cfg w htmlContent filename).2 = [] ∨
      (uploadToGist cfg w htmlContent filename).2 =
        [perform w (Call.gistPost filename htmlContent)] := by
  unfold uploadToGist
  try dsimp only
  repeat' split
  all_goals first | exact Or.inl rfl | exact Or.inr rfl

theorem sendTranscriptDM_effects (w : World) (studentUserId : Option String)
    (channelName filename htmlContent : String) (gistUrl : Option String) :
    sendTranscriptDM w studentUserId channelName filename htmlContent gistUrl = [] ∨
      ∃ u v,
        sendTranscriptDM w studentUserId channelName filename htmlContent gistUrl =
          [perform w (Call.directMessage u channelName filename htmlContent v)] := by
  unfold sendTranscriptDM
  try dsimp only
  repeat' split
  all_goals first | exact Or.inl rfl | exact Or.inr ⟨_, _, rfl⟩

theorem closeQueuePost_count (cfg : Config) (w : World) (s : State) (channel : Channel)
    (p : Effect → Bool) (hp : ∀ m f b ok, p ⟨Call.queueEdit m f b, ok⟩ = false) :
    (closeQueuePost cfg w s channel).2.countP p = 0 := by
  rcases closeQueuePost_effects cfg w s channel with h | ⟨m, f, b, h⟩
  · rw [h]; rfl
  · rw [h]; simp [perform, hp]

theorem uploadToGist_count (cfg : Config) (w : World) (htmlContent filename : String)
    (p : Effect → Bool) (hp : ∀ f c ok, p ⟨Call.gistPost f c, ok⟩ = false) :
    (uploadToGist cfg w htmlContent filename).2.countP p = 0 := by
  rcases uploadToGist_effects cfg w htmlContent filename with h | h
  · rw [h]; rfl
  · rw [h]; simp [perform, hp]

theorem sendTranscriptDM_count_le (w : World) (studentUserId : Option String)
    (channelName filename htmlContent : String) (gistUrl : Option String) (p : Effect → Bool) :
    (sendTranscriptDM w studentUserId channelName filename htmlContent gistUrl).countP p
      ≤ 1 := by
  rcases sendTranscriptDM_effects w studentUserId channelName filename htmlContent gistUrl
    with h | ⟨u, v, h⟩
  · rw [h]; simp
  · rw [h]
    exact le_trans (List.countP_le_length _) (by simp)

theorem sendTranscriptDM_count_archive (w : World) (studentUserId : Option String)
    (channelName filename htmlContent : String) (gistUrl : Option String) :
    (sendTranscriptDM w studentUserId channelName filename htmlContent gistUrl).countP
      (fun e => Call.isArchiveSend e.call && e.ok) = 0 := by
  rcases sendTranscriptDM_effects w studentUserId channelName filename htmlContent gistUrl
    with h | ⟨u, v, h⟩
  · rw [h]; rfl
  · rw [h]; simp [perform, Call.isArchiveSend]

theorem deliveries_append (kind : Call → Bool) (a b : List Effect) :
    deliveries kind (a ++ b) = deliveries kind a + deliveries kind b := by
  simp [deliveries, List.countP_append]

theorem attempts_append (kind : Call → Bool) (a b : List Effect) :
    attempts kind (a ++ b) = attempts kind a + attempts kind b := by
  simp [attempts, List.countP_append]

theorem deliveries_le_attempts (kind : Call → Bool) (a : List Effect) :
    deliveries kind a ≤ attempts kind a := by
  unfold deliveries attempts
  induction a with
  | nil => simp
  | cons e es ih =>
    simp only [List.countP_cons]
    cases kind e.call <;> cases e.ok <;> simp <;> omega

theorem closeQueuePost_attempts (cfg : Config) (w : World) (s : State) (channel : Channel)
    (kind : Call → Bool) (hk : ∀ m f b, kind (Call.queueEdit m f b) = false) :
    attempts kind (closeQueuePost cfg w s channel).2 = 0 :=
  closeQueuePost_count cfg w s channel _ (fun m f b _ => hk m f b)

theorem uploadToGist_attempts (cfg : Config) (w : World) (htmlContent filename : String)
    (kind : Call → Bool) (hk : ∀ f c, kind (Call.gistPost f c) = false) :
    attempts kind (uploadToGist cfg w htmlContent filename).2 = 0 :=
  uploadToGist_count cfg w htmlContent filename _ (fun f c _ => hk f c)

theorem sendTranscriptDM_attempts_le (w : World) (studentUserId : Option String)
    (channelName filename htmlContent : String) (gistUrl : Option String)
    (kind : Call → Bool) :
    attempts kind (sendTranscriptDM w studentUserId channelName filename htmlContent gistUrl)
      ≤ 1 :=
  sendTranscriptDM_count_le w studentUserId channelName filename htmlContent gistUrl _

theorem sendTranscriptDM_attempts_archive (w : World) (studentUserId : Option String)
    (channelName filename htmlContent : String) (gistUrl : Option String) :
    attempts Call.isArchiveSend
      (sendTranscriptDM w studentUserId channelName filename htmlContent gistUrl) = 0 := by
  rcases sendTranscriptDM_effects w studentUserId channelName filename htmlContent gistUrl
    with h | ⟨u, v, h⟩
  · rw [h]; rfl
  · rw [h]; simp [attempts, perform, Call.isArchiveSend]

/-- The run of the `ChannelDelete` handler for a ticket channel with cached messages and
defined metadata, when the transcript channel can be fetched: everything hinges on the
outcome of the archive post. -/
theorem channelDeleteRun_open (host : Host) (cfg : Config) (w : World) (s : State)
    (channel transcriptChannel : Channel) (messages : List Message) (md : Metadata)
    (ht : isTicketChannel cfg (some channel) = true)
    (hc : JsMap.get s.cachedMessages channel.id = some messages) (hne : messages ≠ [])
    (hm : JsMap.get s.ticketMetadata channel.id = some md)
    (hf : w.fetchChannel cfg.TRANSCRIPT_CHANNEL_ID = some transcriptChannel)
    (hvalid : summaryEmbedValid (archiveSummary cfg w channel messages md) = true) :
    channelDeleteRun host cfg w s channel =
      if w.ok (archiveCall host cfg w channel messages md transcriptChannel) = true then
        ⟨{ (closeQueuePost cfg w s channel).1 with
            cachedMessages := JsMap.delete s.cachedMessages channel.id,
            ticketMetadata := JsMap.delete s.ticketMetadata channel.id },
          (closeQueuePost cfg w s channel).2 ++
            (uploadToGist cfg w (transcriptDocument host cfg w channel messages md)
              (transcriptFilename w channel)).2 ++
            [⟨archiveCall host cfg w channel messages md transcriptChannel, true⟩] ++
            sendTranscriptDM w (studentIdOf w channel) channel.name
              (transcriptFilename w channel)
              (transcriptDocument host cfg w channel messages md)
              (gistUrlOf host cfg w channel messages md),
          some (transcriptDocument host cfg w channel messages md), DeleteExit.completed⟩
      else
        ⟨(closeQueuePost cfg w s channel).1,
          (closeQueuePost cfg w s channel).2 ++
            (uploadToGist cfg w (transcriptDocument host cfg w channel messages md)
              (transcriptFilename w channel)).2 ++
            [⟨archiveCall host cfg w channel messages md transcriptChannel, false⟩],
          some (transcriptDocument host cfg w channel messages md), DeleteExit.threw⟩ := by
  have hl : ¬ messages.length = 0 := fun h => hne (List.length_eq_zero.mp h)
  have hvalid' := hvalid
  unfold archiveSummary studentIdOf at hvalid'
  unfold channelDeleteRun
  simp only [ht, hc, hl, hm, hf, hvalid', generateHTMLTranscript, Bool.not_true,
    Bool.false_eq_true, if_false, perform]
  by_cases hok : w.ok (archiveCall host cfg w channel messages md transcriptChannel) = true
  · have hok' := hok
    unfold archiveCall archiveSummary gistUrlOf transcriptDocument transcriptFilename
      studentIdOf at hok'
    simp only [hok, if_true]
    simp only [hok', Bool.not_true, Bool.false_eq_true, if_false]
    simp [archiveCall, archiveSummary, gistUrlOf, transcriptDocument, transcriptFilename,
      studentIdOf, closeQueuePost_cachedMessages, closeQueuePost_ticketMetadata]
  · have hok2 : w.ok (archiveCall host cfg w channel messages md transcriptChannel) = false := by
      simpa using hok
    have hok' := hok2
    unfold archiveCall archiveSummary gistUrlOf transcriptDocument transcriptFilename
      studentIdOf at hok'
    simp only [hok2, Bool.false_eq_true, if_false]
    simp only [hok', Bool.not_false, if_true]
    simp [archiveCall, archiveSummary, gistUrlOf, transcriptDocument, transcriptFilename,
      studentIdOf]

theorem channelDeleteRun_notTicket (host : Host) (cfg : Config) (w : World) (s : State)
    (channel : Channel) (ht : isTicketChannel cfg (some channel) = false) :
    channelDeleteRun host cfg w s channel = ⟨s, [], none, DeleteExit.notTicket⟩ := by
  unfold channelDeleteRun
  simp [ht]

theorem channelDeleteRun_noMessages (host : Host) (cfg : Config) (w : World) (s : State)
    (channel : Channel) (ht : isTicketChannel cfg (some channel) = true)
    (hc : JsMap.get s.cachedMessages channel.id = none ∨
      JsMap.get s.cachedMessages channel.id = some []) :
    channelDeleteRun host cfg w s channel = ⟨s, [], none, DeleteExit.noMessages⟩ := by
  unfold channelDeleteRun
  rcases hc with h | h <;> simp [ht, h]

theorem channelDeleteRun_noMetadata (host : Host) (cfg : Config) (w : World) (s : State)
    (channel : Channel) (messages : List Message)
    (ht : isTicketChannel cfg (some channel) = true)
    (hc : JsMap.get s.cachedMessages channel.id = some messages) (hne : messages ≠ [])
    (hm : JsMap.get s.ticketMetadata channel.id = none) :
    channelDeleteRun host cfg w s channel =
      ⟨(closeQueuePost cfg w s channel).1, (closeQueuePost cfg w s channel).2, none,
        DeleteExit.threw⟩ := by
  have hl : ¬ messages.length = 0 := fun h => hne (List.length_eq_zero.mp h)
  unfold channelDeleteRun
  simp [ht, hc, hl, hm, generateHTMLTranscript]

theorem channelDeleteRun_noArchiveChannel (host : Host) (cfg : Config) (w : World) (s : State)
    (channel : Channel) (messages : List Message) (md : Metadata)
    (ht : isTicketChannel cfg (some channel) = true)
    (hc : JsMap.get s.cachedMessages channel.id = some messages) (hne : messages ≠ [])
    (hm : JsMap.get s.ticketMetadata channel.id = some md)
    (hf : w.fetchChannel cfg.TRANSCRIPT_CHANNEL_ID = none) :
    channelDeleteRun host cfg w s channel =
      ⟨(closeQueuePost cfg w s channel).1,
        (closeQueuePost cfg w s channel).2 ++
          (uploadToGist cfg w (transcriptDocument host cfg w channel messages md)
            (transcriptFilename w channel)).2,
        some (transcriptDocument host cfg w channel messages md), DeleteExit.threw⟩ := by
  have hl : ¬ messages.length = 0 := fun h => hne (List.length_eq_zero.mp h)
  unfold channelDeleteRun
  simp [ht, hc, hl, hm, hf, generateHTMLTranscript, transcriptDocument, transcriptFilename]

theorem channelDeleteRun_invalidSummary (host : Host) (cfg : Config) (w : World) (s : State)
    (channel transcriptChannel : Channel) (messages : List Message) (md : Metadata)
    (ht : isTicketChannel cfg (some channel) = true)
    (hc : JsMap.get s.cachedMessages channel.id = some messages) (hne : messages ≠ [])
    (hm : JsMap.get s.ticketMetadata channel.id = some md)
    (hf : w.fetchChannel cfg.TRANSCRIPT_CHANNEL_ID = some transcriptChannel)
    (hvalid : summaryEmbedValid (archiveSummary cfg w channel messages md) = false) :
    channelDeleteRun host cfg w s channel =
      ⟨(closeQueuePost cfg w s channel).1,
        (closeQueuePost cfg w s channel).2 ++
          (uploadToGist cfg w (transcriptDocument host cfg w channel messages md)
            (transcriptFilename w channel)).2,
        some (transcriptDocument host cfg w channel messages md), DeleteExit.threw⟩ := by
  have hl : ¬ messages.length = 0 := fun h => hne (List.length_eq_zero.mp h)
  have hvalid' := hvalid
  unfold archiveSummary studentIdOf at hvalid'
  unfold channelDeleteRun
  simp only [ht, hc, hl, hm, hf, hvalid', generateHTMLTranscript, Bool.not_true,
    Bool.not_false, Bool.false_eq_true, if_false, if_true]
  simp [transcriptDocument, transcriptFilename]

/-- The four ways a run of the `ChannelDelete` handler can end, with what each leaves. -/
theorem channelDeleteRun_cases (host : Host) (cfg : Config) (w : World) (s : State)
    (channel : Channel) :
    (isTicketChannel cfg (some channel) = false ∧
        channelDeleteRun host cfg w s channel = ⟨s, [], none, DeleteExit.notTicket⟩) ∨
      (isTicketChannel cfg (some channel) = true ∧
        (JsMap.get s.cachedMessages channel.id = none ∨
          JsMap.get s.cachedMessages channel.id = some []) ∧
        channelDeleteRun host cfg w s channel = ⟨s, [], none, DeleteExit.noMessages⟩) ∨
      ((channelDeleteRun host cfg w s channel).exit = DeleteExit.threw ∧
        isTicketChannel cfg (some channel) = true ∧
        (channelDeleteRun host cfg w s channel).state = (closeQueuePost cfg w s channel).1 ∧
        deliveries Call.isArchiveSend (channelDeleteRun host cfg w s channel).effects = 0 ∧
        attempts Call.isDirectMessage (channelDeleteRun host cfg w s channel).effects = 0) ∨
      ((channelDeleteRun host cfg w s channel).exit = DeleteExit.completed ∧
        isTicketChannel cfg (some channel) = true ∧
        (channelDeleteRun host cfg w s channel).state =
          { (closeQueuePost cfg w s channel).1 with
            cachedMessages := JsMap.delete s.cachedMessages channel.id,
            ticketMetadata := JsMap.delete s.ticketMetadata channel.id } ∧
        deliveries Call.isArchiveSend (channelDeleteRun host cfg w s channel).effects = 1 ∧
        attempts Call.isArchiveSend (channelDeleteRun host cfg w s channel).effects = 1 ∧
        attempts Call.isDirectMessage (channelDeleteRun host cfg w s channel).effects ≤ 1) := by
  have hq1 := closeQueuePost_attempts cfg w s channel Call.isArchiveSend (fun _ _ _ => rfl)
  have hq2 := closeQueuePost_attempts cfg w s channel Call.isDirectMessage (fun _ _ _ => rfl)
  have hq3 := Nat.le_zero.mp
    (hq1 ▸ deliveries_le_attempts Call.isArchiveSend (closeQueuePost cfg w s channel).2)
  by_cases ht : isTicketChannel cfg (some channel) = true
  · cases hc : JsMap.get s.cachedMessages channel.id with
    | none =>
      right; left
      exact ⟨ht, Or.inl rfl, channelDeleteRun_noMessages host cfg w s channel ht (Or.inl hc)⟩
    | some messages =>
      by_cases hne : messages = []
      · right; left
        subst hne
        exact ⟨ht, Or.inr rfl, channelDeleteRun_noMessages host cfg w s channel ht (Or.inr hc)⟩
      · cases hm : JsMap.get s.ticketMetadata channel.id with
        | none =>
          right; right; left
          rw [channelDeleteRun_noMetadata host cfg w s channel messages ht hc hne hm]
          exact ⟨rfl, ht, rfl, hq3, hq2⟩
        | some md =>
          have hg1 := uploadToGist_attempts cfg w
            (transcriptDocument host cfg w channel messages md) (transcriptFilename w channel)
            Call.isArchiveSend (fun _ _ => rfl)
          have hg2 := uploadToGist_attempts cfg w
            (transcriptDocument host cfg w channel messages md) (transcriptFilename w channel)
            Call.isDirectMessage (fun _ _ => rfl)
          have hg3 := Nat.le_zero.mp (hg1 ▸ deliveries_le_attempts Call.isArchiveSend
            (uploadToGist cfg w (transcriptDocument host cfg w channel messages md)
              (transcriptFilename w channel)).2)
          cases hf : w.fetchChannel cfg.TRANSCRIPT_CHANNEL_ID with
          | none =>
            right; right; left
            rw [channelDeleteRun_noArchiveChannel host cfg w s channel messages md ht hc hne hm
              hf]
            refine ⟨rfl, ht, rfl, ?_, ?_⟩
            · simp only [deliveries_append, hq3, hg3]
            · simp only [attempts_append, hq2, hg2]
          | some transcriptChannel =>
            by_cases hvalid :
                summaryEmbedValid (archiveSummary cfg w channel messages md) = true
            swap
            · right; right; left
              rw [channelDeleteRun_invalidSummary host cfg w s channel transcriptChannel
                messages md ht hc hne hm hf (by simpa using hvalid)]
              refine ⟨rfl, ht, rfl, ?_, ?_⟩
              · simp only [deliveries_append, hq3, hg3]
              · simp only [attempts_append, hq2, hg2]
            rw [channelDeleteRun_open host cfg w s channel transcriptChannel messages md ht hc
              hne hm hf hvalid]
            by_cases hok :
                w.ok (archiveCall host cfg w channel messages md transcriptChannel) = true
            · right; right; right
              rw [if_pos hok]
              have hd1 := sendTranscriptDM_attempts_archive w (studentIdOf w channel)
                channel.name (transcriptFilename w channel)
                (transcriptDocument host cfg w channel messages md)
                (gistUrlOf host cfg w channel messages md)
              have hd2 := sendTranscriptDM_attempts_le w (studentIdOf w channel)
                channel.name (transcriptFilename w channel)
                (transcriptDocument host cfg w channel messages md)
                (gistUrlOf host cfg w channel messages md) Call.isDirectMessage
              have hd3 := Nat.le_zero.mp (hd1 ▸ deliveries_le_attempts Call.isArchiveSend _)
              refine ⟨rfl, ht, rfl, ?_, ?_, ?_⟩
              · simp only [deliveries_append, hq3, hg3, hd3]
                simp [deliveries, archiveCall, Call.isArchiveSend]
              · simp only [attempts_append, hq1, hg1, hd1]
                simp [attempts, archiveCall, Call.isArchiveSend]
              · simp only [attempts_append, hq2, hg2]
                have h0 : attempts Call.isDirectMessage
                    [(⟨archiveCall host cfg w channel messages md transcriptChannel, true⟩
                      : Effect)] = 0 := by
                  simp [attempts, archiveCall, Call.isDirectMessage]
                omega
            · right; right; left
              rw [if_neg hok]
              refine ⟨rfl, ht, rfl, ?_, ?_⟩
              · simp only [deliveries_append, hq3, hg3]
                simp [deliveries]
              · simp only [attempts_append, hq2, hg2]
                simp [attempts, archiveCall, Call.isDirectMessage]
  · left
    have ht' : isTicketChannel cfg (some channel) = false := by simpa using ht
    exact ⟨ht', channelDeleteRun_notTicket host cfg w s channel ht'⟩

/-! ## C2: at most one transcript -/

/-- C2 as stated fails.  Ticket `100` has one cached message.  In the first handling of
`ChannelDelete` the archive post rejects: the run ends in the `catch` of the handler, nothing
is delivered and the session stays in the stores.  The second handling therefore finds the
session data and delivers the archive post and the direct message. -/
theorem at_most_once_transcript_counterexample :
    (channelDeleteRun sampleHost sampleConfig archiveFailingWorld openState sampleTicket).exit
      = DeleteExit.threw ∧
    deliveries Call.isArchiveSend
      (channelDeleteRun sampleHost sampleConfig archiveFailingWorld openState
        sampleTicket).effects = 0 ∧
    JsMap.get
      (channelDeleteRun sampleHost sampleConfig archiveFailingWorld openState
        sampleTicket).state.cachedMessages "100"
      = some [sampleMessage "1" sampleTicket "hi"] ∧
    (channelDeleteRun sampleHost sampleConfig sampleWorld
      (channelDeleteRun sampleHost sampleConfig archiveFailingWorld openState
        sampleTicket).state sampleTicket).exit = DeleteExit.completed ∧
    deliveries Call.isArchiveSend
      (channelDeleteRun sampleHost sampleConfig sampleWorld
        (channelDeleteRun sampleHost sampleConfig archiveFailingWorld openState
          sampleTicket).state sampleTicket).effects = 1 ∧
    deliveries Call.isDirectMessage
      (channelDeleteRun sampleHost sampleConfig sampleWorld
        (channelDeleteRun sampleHost sampleConfig archiveFailingWorld openState
          sampleTicket).state sampleTicket).effects = 1 := by
  decide

/-- C2, amended.  Handling `ChannelDelete` twice for the same channel, from any stores and
with any answers of the platform, delivers the archive post at most once and the direct
message at most once in total.  When the first handling does not end in the `catch` of the
handler (it delivered its archive post and reached the clean-up, or it found no cached
messages), the second handling finds no session data: it issues no call, generates no
document and leaves the stores as they are.  The case where the first handling fails before
its archive post succeeded is covered by the bound on the deliveries only. -/
theorem at_most_once_transcript (host : Host) (cfg : Config) (w1 w2 : World) (s : State)
    (channel : Channel) :
    deliveries Call.isArchiveSend
        ((channelDeleteRun host cfg w1 s channel).effects ++
          (channelDeleteRun host cfg w2 (channelDeleteRun host cfg w1 s channel).state
            channel).effects) ≤ 1 ∧
    deliveries Call.isDirectMessage
        ((channelDeleteRun host cfg w1 s channel).effects ++
          (channelDeleteRun host cfg w2 (channelDeleteRun host cfg w1 s channel).state
            channel).effects) ≤ 1 ∧
    (0 < deliveries Call.isArchiveSend (channelDeleteRun host cfg w1 s channel).effects →
      (channelDeleteRun host cfg w1 s channel).exit = DeleteExit.completed) ∧
    ((channelDeleteRun host cfg w1 s channel).exit ≠ DeleteExit.threw →
      (channelDeleteRun host cfg w2 (channelDeleteRun host cfg w1 s channel).state
          channel).effects = [] ∧
        (channelDeleteRun host cfg w2 (channelDeleteRun host cfg w1 s channel).state
          channel).htmlContent = none ∧
        (channelDeleteRun host cfg w2 (channelDeleteRun host cfg w1 s channel).state
          channel).state = (channelDeleteRun host cfg w1 s channel).state) := by
  have hbound : ∀ (w : World) (t : State),
      deliveries Call.isArchiveSend (channelDeleteRun host cfg w t channel).effects ≤ 1 ∧
      deliveries Call.isDirectMessage (channelDeleteRun host cfg w t channel).effects ≤ 1 := by
    intro w t
    have hle := deliveries_le_attempts Call.isDirectMessage
      (channelDeleteRun host cfg w t channel).effects
    rcases channelDeleteRun_cases host cfg w t channel with
      ⟨_, h⟩ | ⟨_, _, h⟩ | ⟨_, _, _, h1, h2⟩ | ⟨_, _, _, h1, _, h2⟩
    · rw [h]; exact ⟨by simp [deliveries], by simp [deliveries]⟩
    · rw [h]; exact ⟨by simp [deliveries], by simp [deliveries]⟩
    · omega
    · omega
  have hle1 := deliveries_le_attempts Call.isDirectMessage
    (channelDeleteRun host cfg w1 s channel).effects
  have h2nd := hbound w2 (channelDeleteRun host cfg w1 s channel).state
  rw [deliveries_append, deliveries_append]
  rcases channelDeleteRun_cases host cfg w1 s channel with
    ⟨ht, h⟩ | ⟨ht, hc, h⟩ | ⟨hexit, _, _, h1, h2⟩ | ⟨hexit, ht, hstate, h1, _, h2⟩
  · have hrun2 := channelDeleteRun_notTicket host cfg w2 s channel ht
    simp [h, hrun2, deliveries]
  · have hrun2 := channelDeleteRun_noMessages host cfg w2 s channel ht hc
    simp [h, hrun2, deliveries]
  · refine ⟨by omega, by omega, ?_, ?_⟩
    · intro h0; omega
    · intro hne; exact absurd hexit hne
  · have hnone : JsMap.get (channelDeleteRun host cfg w1 s channel).state.cachedMessages
        channel.id = none := by
      rw [hstate]
      exact JsMap.get_delete_self _ _
    have hrun2 := channelDeleteRun_noMessages host cfg w2
      (channelDeleteRun host cfg w1 s channel).state channel ht (Or.inl hnone)
    have e1 : ∀ kind : Call → Bool,
        deliveries kind (channelDeleteRun host cfg w2
          (channelDeleteRun host cfg w1 s channel).state channel).effects = 0 := by
      intro kind
      rw [hrun2]
      rfl
    rw [e1, e1]
    refine ⟨by omega, by omega, ?_, ?_⟩
    · intro _; exact hexit
    · intro _
      rw [hrun2]
      exact ⟨rfl, rfl, rfl⟩

/-- Worked example of C2 (amended): ticket `100` with one cached message is deleted twice
with every call succeeding; the second handling does nothing. -/
theorem at_most_once_transcript_witness :
    (channelDeleteRun sampleHost sampleConfig sampleWorld
      (channelDeleteRun sampleHost sampleConfig sampleWorld openState sampleTicket).state
      sampleTicket).effects = [] :=
  ((at_most_once_transcript sampleHost sampleConfig sampleWorld sampleWorld openState
    sampleTicket).2.2.2 (by decide)).1

/-! ## C11: the tracked queue entry of a closing ticket -/

/-- C11 as stated fails.  In `pendingState` ticket `100` has the tracked queue entry `700`
and an empty cache: the handler exits at line 782 and the entry stays tracked.  In
`pendingOpenState` the ticket has a cached message but the queue post cannot be fetched: the
block of lines 788-826 is left through its `catch`, before line 823, and the entry stays
tracked although the transcript is delivered and the session removed. -/
theorem queue_tracking_counterexample :
    JsMap.get pendingState.queueMessages "100" = some "700" ∧
    JsMap.get pendingState.cachedMessages "100" = some [] ∧
    JsMap.get
      (onChannelDelete sampleHost sampleConfig sampleWorld pendingState
        sampleTicket).state.queueMessages "100" = some "700" ∧
    JsMap.get pendingOpenState.queueMessages "100" = some "700" ∧
    (channelDeleteRun sampleHost sampleConfig queueFetchFailingWorld pendingOpenState
      sampleTicket).exit = DeleteExit.completed ∧
    JsMap.get
      (onChannelDelete sampleHost sampleConfig queueFetchFailingWorld pendingOpenState
        sampleTicket).state.queueMessages "100" = some "700" := by
  decide

theorem closeQueuePost_forgets (cfg : Config) (w : World) (s : State) (channel : Channel)
    (queueMessageId : String) (queueChannel : Channel) (embeds : Nat)
    (hq : JsMap.get s.queueMessages channel.id = some queueMessageId)
    (hid : queueMessageId ≠ "")
    (hfc : w.fetchChannel cfg.QUEUE_CHANNEL_ID = some queueChannel)
    (hfm : w.fetchMessage queueMessageId = some embeds)
    (hedit : ∀ m f b, w.ok (Call.queueEdit m f b) = true) :
    closeQueuePost cfg w s channel =
      ({ s with queueMessages := JsMap.delete s.queueMessages channel.id },
        if embeds > 0 then
          [⟨Call.queueEdit queueMessageId (Footer.ticketClosed w.now)
            [⟨"claim_disabled", true⟩, ⟨"close_disabled", true⟩], true⟩]
        else []) := by
  unfold closeQueuePost
  simp only [hq, hid, hfc, hfm, perform, hedit, if_false]
  by_cases he : embeds > 0 <;> simp [he]

theorem channelDeleteRun_queueMessages (host : Host) (cfg : Config) (w : World) (s : State)
    (channel : Channel) (messages : List Message)
    (ht : isTicketChannel cfg (some channel) = true)
    (hc : JsMap.get s.cachedMessages channel.id = some messages) (hne : messages ≠ []) :
    (channelDeleteRun host cfg w s channel).state.queueMessages =
        (closeQueuePost cfg w s channel).1.queueMessages ∧
      ∃ rest, (channelDeleteRun host cfg w s channel).effects =
        (closeQueuePost cfg w s channel).2 ++ rest := by
  cases hm : JsMap.get s.ticketMetadata channel.id with
  | none =>
    rw [channelDeleteRun_noMetadata host cfg w s channel messages ht hc hne hm]
    exact ⟨rfl, [], by simp⟩
  | some md =>
    cases hf : w.fetchChannel cfg.TRANSCRIPT_CHANNEL_ID with
    | none =>
      rw [channelDeleteRun_noArchiveChannel host cfg w s channel messages md ht hc hne hm hf]
      exact ⟨rfl, _, rfl⟩
    | some transcriptChannel =>
      by_cases hvalid : summaryEmbedValid (archiveSummary cfg w channel messages md) = true
      · rw [channelDeleteRun_open host cfg w s channel transcriptChannel messages md ht hc hne
          hm hf hvalid]
        split
        · exact ⟨rfl, _, by simp only [List.append_assoc]; rfl⟩
        · exact ⟨rfl, _, by simp only [List.append_assoc]; rfl⟩
      · rw [channelDeleteRun_invalidSummary host cfg w s channel transcriptChannel messages md
          ht hc hne hm hf (by simpa using hvalid)]
        exact ⟨rfl, _, rfl⟩

/-- C11, amended.  For a ticket channel with a tracked queue entry: when the session has at
least one cached message, the queue channel and the queue post can be fetched and the edit
of the post (made when the post has an embed) succeeds, then after the `ChannelDelete`
handler `queueMessages` no longer contains the ticket id, and the first call of the handler
is the edit that gives the post the closed footer and two disabled controls; this holds
whatever the status of the entry (the handler does not look at it) and whatever happens to
the later publish, archive and direct-message steps.  When the cache is missing or empty the
handler exits at line 782 and the entry stays tracked. -/
theorem queue_tracking_ends_with_ticket (host : Host) (cfg : Config) (w : World) (s : State)
    (channel : Channel) (queueMessageId : String)
    (ht : isTicketChannel cfg (some channel) = true)
    (hq : JsMap.get s.queueMessages channel.id = some queueMessageId)
    (hid : queueMessageId ≠ "") :
    (∀ (messages : List Message) (queueChannel : Channel) (embeds : Nat),
      JsMap.get s.cachedMessages channel.id = some messages → messages ≠ [] →
        w.fetchChannel cfg.QUEUE_CHANNEL_ID = some queueChannel →
        w.fetchMessage queueMessageId = some embeds →
        (∀ m f b, w.ok (Call.queueEdit m f b) = true) →
        JsMap.get (onChannelDelete host cfg w s channel).state.queueMessages channel.id
            = none ∧
          (0 < embeds →
            ∃ rest, (onChannelDelete host cfg w s channel).effects =
              ⟨Call.queueEdit queueMessageId (Footer.ticketClosed w.now)
                [⟨"claim_disabled", true⟩, ⟨"close_disabled", true⟩], true⟩ :: rest)) ∧
    ((JsMap.get s.cachedMessages channel.id = none ∨
        JsMap.get s.cachedMessages channel.id = some []) →
      JsMap.get (onChannelDelete host cfg w s channel).state.queueMessages channel.id
        = some queueMessageId) := by
  constructor
  · intro messages queueChannel embeds hc hne hfc hfm hedit
    obtain ⟨h1, rest, h2⟩ := channelDeleteRun_queueMessages host cfg w s channel messages ht
      hc hne
    have h3 := closeQueuePost_forgets cfg w s channel queueMessageId queueChannel embeds hq hid
      hfc hfm hedit
    constructor
    · show JsMap.get (channelDeleteRun host cfg w s channel).state.queueMessages channel.id
        = none
      rw [h1, h3]
      exact JsMap.get_delete_self _ _
    · intro hpos
      refine ⟨rest, ?_⟩
      show (channelDeleteRun host cfg w s channel).effects = _
      rw [h2, h3]
      simp [hpos]
  · intro hc
    show JsMap.get (channelDeleteRun host cfg w s channel).state.queueMessages channel.id = _
    rw [channelDeleteRun_noMessages host cfg w s channel ht hc]
    exact hq

/-- Worked example of C11 (amended): ticket `100` with a tracked entry and one cached message
is deleted with every fetch and call succeeding; the entry is no longer tracked. -/
theorem queue_tracking_ends_with_ticket_witness :
    JsMap.get
      (onChannelDelete sampleHost sampleConfig sampleWorld pendingOpenState
        sampleTicket).state.queueMessages sampleTicket.id = none :=
  ((queue_tracking_ends_with_ticket sampleHost sampleConfig sampleWorld pendingOpenState
    sampleTicket "700" (by decide) (by decide) (by decide)).1
    [sampleMessage "1" sampleTicket "hi"] (sampleChannel "900" none) 1 (by decide) (by decide)
    (by decide) (by decide) (fun _ _ _ => rfl)).1

/-! ## C12: the delivery steps of a closing ticket -/

/-- C12 at its failing input.  Ticket `100` has one cached message and its student `501` is
resolved.  When the archive post rejects, the run ends in the `catch` of the handler: the
direct message is not attempted and the session is not removed from the stores.  By contrast,
when the direct message rejects, the archive post has been delivered, the run reaches its end
and the session is removed; and when the request to the publishing service rejects, the
archive post and the direct message are both delivered. -/
theorem independent_delivery_archive_failure :
    studentIdOf archiveFailingWorld sampleTicket = some "501" ∧
    attempts Call.isArchiveSend
      (channelDeleteRun sampleHost sampleConfig archiveFailingWorld openState
        sampleTicket).effects = 1 ∧
    attempts Call.isDirectMessage
      (channelDeleteRun sampleHost sampleConfig archiveFailingWorld openState
        sampleTicket).effects = 0 ∧
    (channelDeleteRun sampleHost sampleConfig archiveFailingWorld openState sampleTicket).exit
      = DeleteExit.threw ∧
    JsMap.get
      (channelDeleteRun sampleHost sampleConfig archiveFailingWorld openState
        sampleTicket).state.cachedMessages "100"
      = some [sampleMessage "1" sampleTicket "hi"] ∧
    deliveries Call.isArchiveSend
      (channelDeleteRun sampleHost sampleConfig directMessageFailingWorld openState
        sampleTicket).effects = 1 ∧
    attempts Call.isDirectMessage
      (channelDeleteRun sampleHost sampleConfig directMessageFailingWorld openState
        sampleTicket).effects = 1 ∧
    deliveries Call.isDirectMessage
      (channelDeleteRun sampleHost sampleConfig directMessageFailingWorld openState
        sampleTicket).effects = 0 ∧
    JsMap.get
      (channelDeleteRun sampleHost sampleConfig directMessageFailingWorld openState
        sampleTicket).state.cachedMessages "100" = none ∧
    deliveries Call.isGistPost
      (channelDeleteRun sampleHost publishingConfig publishFailingWorld openState
        sampleTicket).effects = 0 ∧
    deliveries Call.isArchiveSend
      (channelDeleteRun sampleHost publishingConfig publishFailingWorld openState
        sampleTicket).effects = 1 ∧
    deliveries Call.isDirectMessage
      (channelDeleteRun sampleHost publishingConfig publishFailingWorld openState
        sampleTicket).effects = 1 := by
  decide

/-! ## C13: optional publishing -/

theorem uploadToGist_with_token (cfg : Config) (w : World) (htmlContent filename : String)
    (htoken : truthy cfg.GITHUB_TOKEN = true) :
    (uploadToGist cfg w htmlContent filename).2 =
        [perform w (Call.gistPost filename htmlContent)] := by
  unfold uploadToGist
  simp only [htoken, Bool.not_true, Bool.false_eq_true, if_false]
  try dsimp only
  repeat' split
  all_goals rfl

/-- C13, optional and graceful publishing.  The function `uploadToGist` is total: every
exception of the source is the result `null`.  Without credential it returns `null` and
makes no request.  With a credential it makes exactly one request and returns `null` when
the request rejects, when reading the response raises, when the response is not a success,
and when no file of the response has a raw URL; when the first file of a success response
has a non-empty key and raw URL it returns `https://htmlpreview.github.io/?` followed by that
URL.  Whenever the link of a session is `null` and the handler reaches the archive post (the
transcript channel is fetched and the builder calls of lines 864-875 accept the summary), the
post carries the summary and the document and no view-link control. -/
theorem optional_graceful_publishing (host : Host) (cfg : Config) (w : World) :
    (∀ htmlContent filename, truthy cfg.GITHUB_TOKEN = false →
      uploadToGist cfg w htmlContent filename = (none, [])) ∧
    (∀ htmlContent filename, truthy cfg.GITHUB_TOKEN = true →
      (uploadToGist cfg w htmlContent filename).2 =
          [perform w (Call.gistPost filename htmlContent)] ∧
        (w.ok (Call.gistPost filename htmlContent) = false →
          (uploadToGist cfg w htmlContent filename).1 = none) ∧
        (w.gist = GistResponse.throws → (uploadToGist cfg w htmlContent filename).1 = none) ∧
        (w.gist = GistResponse.notOk → (uploadToGist cfg w htmlContent filename).1 = none) ∧
        (∀ files, w.gist = GistResponse.ok files → (∀ p ∈ files, truthy p.2 = false) →
          (uploadToGist cfg w htmlContent filename).1 = none) ∧
        (∀ key url rest, w.ok (Call.gistPost filename htmlContent) = true →
          w.gist = GistResponse.ok ((key, some url) :: rest) → key ≠ "" → url ≠ "" →
          (uploadToGist cfg w htmlContent filename).1 =
            some ("https://htmlpreview.github.io/?" ++ url))) ∧
    (∀ (s : State) (channel transcriptChannel : Channel) (messages : List Message)
        (md : Metadata),
      isTicketChannel cfg (some channel) = true →
        JsMap.get s.cachedMessages channel.id = some messages → messages ≠ [] →
        JsMap.get s.ticketMetadata channel.id = some md →
        w.fetchChannel cfg.TRANSCRIPT_CHANNEL_ID = some transcriptChannel →
        summaryEmbedValid (archiveSummary cfg w channel messages md) = true →
        (uploadToGist cfg w (transcriptDocument host cfg w channel messages md)
          (transcriptFilename w channel)).1 = none →
        perform w (Call.archiveSend transcriptChannel.id
            (archiveSummary cfg w channel messages md) (transcriptFilename w channel)
            (transcriptDocument host cfg w channel messages md) none)
          ∈ (onChannelDelete host cfg w s channel).effects) := by
  refine ⟨?_, ?_, ?_⟩
  · intro htmlContent filename htoken
    unfold uploadToGist
    simp [htoken]
  · intro htmlContent filename htoken
    refine ⟨uploadToGist_with_token cfg w htmlContent filename htoken, ?_, ?_, ?_, ?_, ?_⟩
    · intro hok
      unfold uploadToGist
      simp [htoken, perform, hok]
    · intro hg
      unfold uploadToGist
      simp only [htoken, hg, Bool.not_true, Bool.false_eq_true, if_false]
      split <;> rfl
    · intro hg
      unfold uploadToGist
      simp only [htoken, hg, Bool.not_true, Bool.false_eq_true, if_false]
      split <;> rfl
    · intro files hg hnone
      unfold uploadToGist
      simp only [htoken, hg, Bool.not_true, Bool.false_eq_true, if_false]
      cases files with
      | nil => split <;> rfl
      | cons p rest =>
        have hp := hnone p (List.mem_cons_self p rest)
        obtain ⟨key, raw⟩ := p
        simp only at hp
        simp only [hp, Bool.not_false, Bool.or_true, if_true]
        split <;> rfl
    · intro key url rest hok hg hkey hurl
      unfold uploadToGist
      simp only [htoken, hg, perform, hok, Bool.not_true, Bool.false_eq_true, if_false]
      simp [hkey, truthy, hurl, orElse]
  · intro s channel transcriptChannel messages md ht hc hne hm hf hvalid hnull
    have hcall : archiveCall host cfg w channel messages md transcriptChannel =
        Call.archiveSend transcriptChannel.id (archiveSummary cfg w channel messages md)
          (transcriptFilename w channel) (transcriptDocument host cfg w channel messages md)
          none := by
      unfold archiveCall gistUrlOf
      rw [hnull]
      simp [truthy]
    rw [← hcall]
    show _ ∈ (channelDeleteRun host cfg w s channel).effects
    rw [channelDeleteRun_open host cfg w s channel transcriptChannel messages md ht hc hne hm hf
      hvalid]
    by_cases hok : w.ok (archiveCall host cfg w channel messages md transcriptChannel) = true
    · rw [if_pos hok]
      simp [perform, hok]
    · rw [if_neg hok]
      have hok2 : w.ok (archiveCall host cfg w channel messages md transcriptChannel) = false := by
        simpa using hok
      simp [perform, hok2]

/-- Worked example of C13: with a credential and a success response that lists one file, the
link is the preview address followed by the raw URL of that file. -/
theorem optional_graceful_publishing_witness :
    (uploadToGist publishingConfig publishingWorld "<html></html>" "transcript.html").1
      = some "https://htmlpreview.github.io/?https://gist.example/raw/1" :=
  ((optional_graceful_publishing sampleHost publishingConfig publishingWorld).2.1
    "<html></html>" "transcript.html" (by decide)).2.2.2.2.2 "transcript.html"
    "https://gist.example/raw/1" [] rfl rfl (by decide) (by decide)

/-- A summary the builder rejects: forty staff tags joined are longer than 1024 code units,
`addFields` raises, the run ends in the `catch` of the handler and no archive post is
issued, although the document was generated. -/
theorem crowded_summary_raises :
    summaryEmbedValid
      (archiveSummary sampleConfig sampleWorld sampleTicket
        [sampleMessage "1" sampleTicket "hi"] crowdedMetadata) = false ∧
    (channelDeleteRun sampleHost sampleConfig sampleWorld crowdedState sampleTicket).exit
      = DeleteExit.threw ∧
    attempts Call.isArchiveSend
      (channelDeleteRun sampleHost sampleConfig sampleWorld crowdedState sampleTicket).effects
      = 0 ∧
    ((channelDeleteRun sampleHost sampleConfig sampleWorld crowdedState
      sampleTicket).htmlContent).isSome = true := by
  decide!

/-! ## C14: the transcript document -/

theorem foldl_append_init (ys : List String) (init : String) :
    ys.foldl (fun r s => r ++ s) init = init ++ ys.foldl (fun r s => r ++ s) "" := by
  induction ys generalizing init with
  | nil => simp
  | cons y ys ih =>
    simp only [List.foldl_cons]
    rw [ih (init ++ y), ih ("" ++ y)]
    simp [String.append_assoc]

theorem join_cons (x : String) (xs : List String) :
    String.join (x :: xs) = x ++ String.join xs := by
  simp only [String.join, List.foldl_cons]
  rw [foldl_append_init xs ("" ++ x)]
  simp

theorem foldl_append_eq (f : Message → String) (messages : List Message) (init : String) :
    messages.foldl (fun acc msg => acc ++ f msg) init =
      init ++ String.join (messages.map f) := by
  induction messages generalizing init with
  | nil => simp [String.join]
  | cons m ms ih =>
    simp only [List.foldl_cons, List.map_cons]
    rw [ih, join_cons, String.append_assoc]

theorem jsJoin_empty_sep (l : List String) : jsJoin "" l = String.join l := by
  induction l with
  | nil => rfl
  | cons a rest ih =>
    cases rest with
    | nil => simp [jsJoin, String.join]
    | cons b rest2 =>
      rw [jsJoin, ih, join_cons a]
      simp

theorem messageHTML_frame (host : Host) (msg : Message) :
    messageHTML host msg =
      messageFrame (if msg.author.bot then "bot" else "")
        (if msg.author.username ≠ "" then host.initialOf msg.author.username else "?")
        (escapeHtml (authorName msg.author)) (botMarker msg.author.bot)
        (host.formatTimestamp msg.createdAt) (textElement msg.content)
        (embedPlaceholder msg.embeds) (attachmentLinks msg.attachments) := by
  have hname : orElse (some msg.author.username) msg.author.tag = authorName msg.author := by
    simp [orElse, authorName]
  have htext : (if msg.content ≠ "" then
        "<div class=\"message-text\">" ++ escapeHtml msg.content ++ "</div>" else "")
      = textElement msg.content := by
    unfold textElement
    by_cases h : msg.content = "" <;> simp [h]
  have hembed : (if msg.embeds > 0 then
        "<div class=\"embed\">[" ++ toString msg.embeds ++ " embed" ++
          (if msg.embeds > 1 then "s" else "") ++ "]</div>" else "")
      = embedPlaceholder msg.embeds := by
    unfold embedPlaceholder
    by_cases h0 : msg.embeds = 0
    · simp [h0]
    · by_cases h1 : msg.embeds = 1
      · simp [h1]
      · have hgt : msg.embeds > 1 := by omega
        have hpos : msg.embeds > 0 := by omega
        simp only [hpos, hgt, h0, h1, if_true, if_false]
        have : (" embed" : String) ++ "s" = " embeds" := by decide
        rw [String.append_assoc _ " embed" "s", this]
  have hatt : (if msg.attachments.length > 0 then
        jsJoin "" (msg.attachments.map attachmentHTML) else "")
      = attachmentLinks msg.attachments := by
    unfold attachmentLinks
    rw [jsJoin_empty_sep]
    cases msg.attachments with
    | nil => simp [String.join]
    | cons a rest => simp
  unfold messageHTML messageFrame
  simp only [hname, htext, hembed, hatt, botMarker]

theorem botMarker_eq_empty (isBot : Bool) : botMarker isBot = "" ↔ isBot = false := by
  cases isBot
  · simp [botMarker]
  · simp only [botMarker, if_true]
    decide

theorem textElement_eq_empty (content : String) : textElement content = "" ↔ content = "" := by
  unfold textElement
  by_cases h : content = ""
  · simp [h]
  · simp only [h, if_false, iff_false]
    intro h2
    have := congrArg String.length h2
    simp only [String.length_append] at this
    have h3 : "</div>".length = 6 := by decide
    have h4 : "".length = 0 := by decide
    omega

theorem embedPlaceholder_eq_empty (k : Nat) : embedPlaceholder k = "" ↔ k = 0 := by
  unfold embedPlaceholder
  by_cases h : k = 0
  · simp [h]
  · simp only [h, if_false, iff_false]
    intro h2
    have := congrArg String.length h2
    simp only [String.length_append] at this
    have h3 : "]</div>".length = 7 := by decide
    have h4 : "".length = 0 := by decide
    omega

/-- C14, rendering order and completeness.  For every list of cached messages and every
defined metadata, `generateHTMLTranscript` returns the header, then exactly one block per
record in cache order, then the footer.  The block of a record is the fixed frame filled
with the escaped author name, the BOT marker (present exactly when the author is
automated), the escaped text (present exactly when the text is non-empty), the embed
placeholder (present exactly when the record has `k > 0` embeds, reading `[1 embed]` or
`[k embeds]`) and one attachment block per attachment, in order.  The footer reports the
number of records. -/
theorem transcript_rendering (host : Host) (cfg : Config) (now : Nat) (channel : Channel)
    (messages : List Message) (md : Metadata) :
    generateHTMLTranscript host cfg now channel messages (some md) =
        some (headerHTML host cfg now channel md ++
          String.join (messages.map (messageHTML host)) ++ footerHTML channel messages) ∧
    (messages.map (messageHTML host)).length = messages.length ∧
    (∀ msg : Message,
      messageHTML host msg =
        messageFrame (if msg.author.bot then "bot" else "")
          (if msg.author.username ≠ "" then host.initialOf msg.author.username else "?")
          (escapeHtml (authorName msg.author)) (botMarker msg.author.bot)
          (host.formatTimestamp msg.createdAt) (textElement msg.content)
          (embedPlaceholder msg.embeds) (attachmentLinks msg.attachments)) ∧
    (∀ isBot : Bool, (botMarker isBot = "<span class=\"bot-tag\">BOT</span>" ↔ isBot = true) ∧
      (botMarker isBot = "" ↔ isBot = false)) ∧
    (∀ content : String, (textElement content = "" ↔ content = "") ∧
      (content ≠ "" →
        textElement content = "<div class=\"message-text\">" ++ escapeHtml content ++ "</div>")) ∧
    (∀ k : Nat, (embedPlaceholder k = "" ↔ k = 0) ∧
      embedPlaceholder 1 = "<div class=\"embed\">[1 embed]</div>" ∧
      (1 < k →
        embedPlaceholder k = "<div class=\"embed\">[" ++ toString k ++ " embeds]</div>")) ∧
    (∀ attachments : List Attachment,
      attachmentLinks attachments = String.join (attachments.map attachmentHTML) ∧
      (attachments.map attachmentHTML).length = attachments.length) ∧
    (∃ before after,
      footerHTML channel messages =
        before ++ toString messages.length ++ " messages" ++ after) := by
  refine ⟨?_, by simp, messageHTML_frame host, ?_, ?_, ?_, ?_, ?_⟩
  · unfold generateHTMLTranscript
    simp only []
    rw [foldl_append_eq]
    simp
  · intro isBot
    refine ⟨?_, botMarker_eq_empty isBot⟩
    cases isBot
    · simp only [botMarker, Bool.false_eq_true, if_false, iff_false]
      decide
    · simp [botMarker]
  · intro content
    refine ⟨textElement_eq_empty content, ?_⟩
    intro h
    simp [textElement, h]
  · intro k
    refine ⟨embedPlaceholder_eq_empty k, by decide, ?_⟩
    intro hk
    have h0 : k ≠ 0 := by omega
    have h1 : k ≠ 1 := by omega
    simp [embedPlaceholder, h0, h1, String.append_assoc]
  · intro attachments
    exact ⟨rfl, by simp⟩
  · refine ⟨"\n        </div>" ++ "\n        " ++ "\n        <div class=\"footer\">" ++
      "\n            Transcript generated for " ++ escapeHtml channel.name ++ " • ",
      "\n        </div>" ++ "\n    </div>" ++ "\n</body>" ++ "\n</html>", ?_⟩
    simp [footerHTML, String.append_assoc]

/-- Worked example of C14: the document of ticket `100` with the messages `hi` and
`richMessage` is the text written out in `expectedDocument`. -/
theorem transcript_rendering_witness :
    generateHTMLTranscript sampleHost sampleConfig 7 sampleTicket
        [sampleMessage "1" sampleTicket "hi", richMessage] (some sampleMetadata)
      = some expectedDocument :=
  (transcript_rendering sampleHost sampleConfig 7 sampleTicket
    [sampleMessage "1" sampleTicket "hi", richMessage] sampleMetadata).1.trans (by decide!)

/-! ## C15: `escapeHtml` -/

theorem unescapeAux_escapeChar (c : Char) (l : List Char) :
    unescapeAux 0 (escapeChar c ++ l) = c :: unescapeAux 0 l := by
  unfold escapeChar
  split_ifs with h1 h2 h3 h4 h5
  · subst h1; simp [unescapeAux]
  · subst h2; simp [unescapeAux]
  · subst h3; simp [unescapeAux]
  · subst h4; simp [unescapeAux]
  · subst h5; simp [unescapeAux]
  · simp [unescapeAux, h1]

theorem unescapeAux_flatMap (l : List Char) :
    unescapeAux 0 (l.flatMap escapeChar) = l := by
  induction l with
  | nil => rfl
  | cons c rest ih =>
    rw [List.flatMap_cons, unescapeAux_escapeChar, ih]

theorem escapeChar_no_markup (a c : Char) (h : c ∈ escapeChar a) :
    c ≠ '<' ∧ c ≠ '>' ∧ c ≠ '"' ∧ c ≠ '\x27' := by
  unfold escapeChar at h
  split_ifs at h with h1 h2 h3 h4 h5
  · have : c ∈ ['&', 'a', 'm', 'p', ';'] := h
    simp only [List.mem_cons, List.mem_singleton, List.not_mem_nil, or_false] at this
    rcases this with h | h | h | h | h <;> subst h <;> decide
  · have : c ∈ ['&', 'l', 't', ';'] := h
    simp only [List.mem_cons, List.mem_singleton, List.not_mem_nil, or_false] at this
    rcases this with h | h | h | h <;> subst h <;> decide
  · have : c ∈ ['&', 'g', 't', ';'] := h
    simp only [List.mem_cons, List.mem_singleton, List.not_mem_nil, or_false] at this
    rcases this with h | h | h | h <;> subst h <;> decide
  · have : c ∈ ['&', 'q', 'u', 'o', 't', ';'] := h
    simp only [List.mem_cons, List.mem_singleton, List.not_mem_nil, or_false] at this
    rcases this with h | h | h | h | h | h <;> subst h <;> decide
  · have : c ∈ ['&', '#', '0', '3', '9', ';'] := h
    simp only [List.mem_cons, List.mem_singleton, List.not_mem_nil, or_false] at this
    rcases this with h | h | h | h | h | h <;> subst h <;> decide
  · simp only [List.mem_singleton] at h
    subst h
    exact ⟨h2, h3, h4, h5⟩

theorem escapeChar_plain (c : Char) (h : isSpecial c = false) : escapeChar c = [c] := by
  simp only [isSpecial, Bool.or_eq_false_iff, decide_eq_false_iff_not] at h
  obtain ⟨⟨⟨⟨h1, h2⟩, h3⟩, h4⟩, h5⟩ := h
  simp [escapeChar, h1, h2, h3, h4, h5]

/-- An ampersand inside the image of one character is the first character of that image,
and the image is then one of the five entities. -/
theorem escapeChar_ampersand (a : Char) (pre post : List Char)
    (h : escapeChar a = pre ++ '&' :: post) :
    pre = [] ∧ ∃ e ∈ entities, e.data = escapeChar a := by
  unfold escapeChar at h ⊢
  split_ifs at h ⊢ with h1 h2 h3 h4 h5
  · refine ⟨?_, "&amp;", by simp [entities], rfl⟩
    cases pre with
    | nil => rfl
    | cons x xs =>
      have h' : ['&', 'a', 'm', 'p', ';'] = x :: (xs ++ '&' :: post) := h
      have hmem : '&' ∈ xs ++ '&' :: post := by simp
      rw [← (List.cons.inj h').2] at hmem
      exact absurd hmem (by decide)
  · refine ⟨?_, "&lt;", by simp [entities], rfl⟩
    cases pre with
    | nil => rfl
    | cons x xs =>
      have h' : ['&', 'l', 't', ';'] = x :: (xs ++ '&' :: post) := h
      have hmem : '&' ∈ xs ++ '&' :: post := by simp
      rw [← (List.cons.inj h').2] at hmem
      exact absurd hmem (by decide)
  · refine ⟨?_, "&gt;", by simp [entities], rfl⟩
    cases pre with
    | nil => rfl
    | cons x xs =>
      have h' : ['&', 'g', 't', ';'] = x :: (xs ++ '&' :: post) := h
      have hmem : '&' ∈ xs ++ '&' :: post := by simp
      rw [← (List.cons.inj h').2] at hmem
      exact absurd hmem (by decide)
  · refine ⟨?_, "&quot;", by simp [entities], rfl⟩
    cases pre with
    | nil => rfl
    | cons x xs =>
      have h' : ['&', 'q', 'u', 'o', 't', ';'] = x :: (xs ++ '&' :: post) := h
      have hmem : '&' ∈ xs ++ '&' :: post := by simp
      rw [← (List.cons.inj h').2] at hmem
      exact absurd hmem (by decide)
  · refine ⟨?_, "&#039;", by simp [entities], rfl⟩
    cases pre with
    | nil => rfl
    | cons x xs =>
      have h' : ['&', '#', '0', '3', '9', ';'] = x :: (xs ++ '&' :: post) := h
      have hmem : '&' ∈ xs ++ '&' :: post := by simp
      rw [← (List.cons.inj h').2] at hmem
      exact absurd hmem (by decide)
  · exfalso
    cases pre with
    | nil =>
      have h' : [a] = '&' :: post := h
      exact h1 (List.cons.inj h').1
    | cons x xs =>
      have h' : [a] = x :: (xs ++ '&' :: post) := h
      have := (List.cons.inj h').2
      simp at this

theorem flatMap_ampersand (l : List Char) :
    ∀ pre post : List Char, l.flatMap escapeChar = pre ++ '&' :: post →
      ∃ e ∈ entities, e.data <+: '&' :: post := by
  induction l with
  | nil =>
    intro pre post h
    simp at h
  | cons a rest ih =>
    intro pre post h
    rw [List.flatMap_cons, List.append_eq_append_iff] at h
    rcases h with ⟨a', hpre, hrest⟩ | ⟨c', himg, hpost⟩
    · exact ih a' post hrest
    · cases c' with
      | nil =>
        simp only [List.nil_append] at hpost
        exact ih [] post (by simpa using hpost.symm)
      | cons x c'' =>
        have hx : x = '&' := by
          have := (List.cons.inj hpost).1
          exact this.symm
        subst hx
        obtain ⟨hnil, e, he, hdata⟩ := escapeChar_ampersand a pre c'' himg
        refine ⟨e, he, ?_⟩
        rw [hdata, himg, hnil, hpost]
        exact List.prefix_append _ _

theorem flatMap_plain (l : List Char) (h : ∀ c ∈ l, isSpecial c = false) :
    l.flatMap escapeChar = l := by
  induction l with
  | nil => rfl
  | cons c rest ih =>
    rw [List.flatMap_cons, escapeChar_plain c (h c (List.mem_cons_self c rest)),
      ih (fun x hx => h x (List.mem_cons_of_mem c hx))]
    rfl

theorem filter_plain_sublist (l : List Char) :
    List.Sublist (l.filter (fun c => !isSpecial c)) (l.flatMap escapeChar) := by
  induction l with
  | nil => exact List.Sublist.slnil
  | cons c rest ih =>
    rw [List.flatMap_cons]
    by_cases hc : isSpecial c = true
    · simp only [List.filter_cons, hc, Bool.not_true, Bool.false_eq_true, if_false]
      exact List.Sublist.trans ih (List.sublist_append_right _ _)
    · have hc' : isSpecial c = false := by simpa using hc
      simp only [List.filter_cons, hc', Bool.not_false, if_true, escapeChar_plain c hc']
      exact List.Sublist.cons₂ c ih

theorem unescapeHtml_escapeHtml (text : String) : unescapeHtml (escapeHtml text) = text := by
  unfold unescapeHtml escapeHtml
  simp only [unescapeAux_flatMap]

/-- C15, `escapeHtml` neutralises markup.  For every string: (1) the result contains none of
the characters `<`, `>`, `"` and `'`; (2) every `&` of the result begins one of the five
entities; (3) the characters of the input other than the five special ones occur in the
result in their order, and the result of a concatenation is the concatenation of the
results, so every character is rewritten in place; (4) a string without special character is
returned unchanged; (5) replacing the entities back recovers the input, so `escapeHtml` is
injective. -/
theorem escapeHtml_neutralises_markup (text : String) :
    (∀ c ∈ (escapeHtml text).data, c ≠ '<' ∧ c ≠ '>' ∧ c ≠ '"' ∧ c ≠ '\x27') ∧
    (∀ pre post : List Char, (escapeHtml text).data = pre ++ '&' :: post →
      ∃ e ∈ entities, e.data <+: '&' :: post) ∧
    List.Sublist (text.data.filter (fun c => !isSpecial c)) (escapeHtml text).data ∧
    (∀ a b : String, escapeHtml (a ++ b) = escapeHtml a ++ escapeHtml b) ∧
    ((∀ c ∈ text.data, isSpecial c = false) → escapeHtml text = text) ∧
    unescapeHtml (escapeHtml text) = text ∧
    Function.Injective escapeHtml := by
  refine ⟨?_, ?_, ?_, ?_, ?_, unescapeHtml_escapeHtml text, ?_⟩
  · intro c hc
    simp only [escapeHtml, List.mem_flatMap] at hc
    obtain ⟨a, _, ha⟩ := hc
    exact escapeChar_no_markup a c ha
  · intro pre post h
    exact flatMap_ampersand text.data pre post h
  · exact filter_plain_sublist text.data
  · intro a b
    apply String.ext
    simp [escapeHtml, String.data_append]
  · intro h
    apply String.ext
    simp only [escapeHtml]
    exact flatMap_plain text.data h
  · intro a b hab
    have := congrArg unescapeHtml hab
    rwa [unescapeHtml_escapeHtml, unescapeHtml_escapeHtml] at this

/-- Worked example of C15: a text with the five special characters and an entity-like
sequence is recovered from its escaped form. -/
theorem escapeHtml_neutralises_markup_witness :
    escapeHtml "<a href=\"x\">Tom & Jerry's &amp;</a>" =
        "&lt;a href=&quot;x&quot;&gt;Tom &amp; Jerry&#039;s &amp;amp;&lt;/a&gt;" ∧
      unescapeHtml "&lt;a href=&quot;x&quot;&gt;Tom &amp; Jerry&#039;s &amp;amp;&lt;/a&gt;" =
        "<a href=\"x\">Tom & Jerry's &amp;</a>" := by
  have h := (escapeHtml_neutralises_markup "<a href=\"x\">Tom & Jerry's &amp;</a>").2.2.2.2.2.1
  have e : escapeHtml "<a href=\"x\">Tom & Jerry's &amp;</a>" =
      "&lt;a href=&quot;x&quot;&gt;Tom &amp; Jerry&#039;s &amp;amp;&lt;/a&gt;" := by decide
  exact ⟨e, e ▸ h⟩

/-! ## C16: the two session stores stay coherent -/

theorem onChannelCreate_coherent (cfg : Config) (w : World) (s : State) (channel : Channel)
    (h : Coherent s) : Coherent (onChannelCreate cfg w s channel).state := by
  intro c
  by_cases ht : isTicketChannel cfg (some channel) = true
  · by_cases hc : channel.id = c
    · subst hc
      rw [onChannelCreate_opens cfg w s channel ht]
      unfold onChannelCreate
      simp only [ht, Bool.not_true, Bool.false_eq_true, if_false, JsMap.get_set_self]
      cases firstHumanMember w channel.permissionOverwrites <;>
        (try dsimp only) <;> split <;> simp [JsMap.get_set_self]
    · rw [onChannelCreate_get_cachedMessages cfg w s channel c hc, ← h c]
      unfold onChannelCreate
      simp only [ht, Bool.not_true, Bool.false_eq_true, if_false, JsMap.get_set_self]
      cases firstHumanMember w channel.permissionOverwrites <;>
        (try dsimp only) <;> split <;> simp [JsMap.get_set_ne _ _ _ _ hc]
  · have : onChannelCreate cfg w s channel = ⟨s, []⟩ := by
      unfold onChannelCreate
      simp [ht]
    rw [this]
    exact h c

theorem onMessageCreate_coherent (cfg : Config) (s : State) (m : Message)
    (h : Coherent s) : Coherent (onMessageCreate cfg s m).state := by
  intro c
  unfold onMessageCreate
  split
  · exact h c
  · split
    · exact h c
    · rename_i cached hget
      simp only []
      by_cases hc : m.channel.id = c
      · subst hc
        rw [JsMap.get_set_self, h m.channel.id, hget]
        rfl
      · rw [JsMap.get_set_ne _ _ _ _ hc]
        exact h c

theorem recordClaimant_isSome (s : State) (channelId tag c : String) :
    (JsMap.get (recordClaimant s channelId tag).ticketMetadata c).isSome =
      (JsMap.get s.ticketMetadata c).isSome := by
  by_cases hc : channelId = c
  · subst hc
    rw [recordClaimant_get_self]
    cases JsMap.get s.ticketMetadata channelId <;> rfl
  · rw [recordClaimant_get_other s channelId tag c hc]

theorem onInteractionCreate_coherent (cfg : Config) (w : World) (s : State) (i : Interaction)
    (h : Coherent s) : Coherent (onInteractionCreate cfg w s i).state := by
  intro c
  rw [onInteractionCreate_cachedMessages]
  rcases onInteractionCreate_ticketMetadata cfg w s i with h1 | h1
  · rw [h1]
    exact h c
  · rw [h1, recordClaimant_isSome]
    exact h c

theorem onChannelDelete_coherent (host : Host) (cfg : Config) (w : World) (s : State)
    (channel : Channel) (h : Coherent s) :
    Coherent (onChannelDelete host cfg w s channel).state := by
  intro c
  show (JsMap.get (channelDeleteRun host cfg w s channel).state.ticketMetadata c).isSome =
    (JsMap.get (channelDeleteRun host cfg w s channel).state.cachedMessages c).isSome
  rcases channelDeleteRun_cases host cfg w s channel with
    ⟨_, hrun⟩ | ⟨_, _, hrun⟩ | ⟨_, _, hstate, _⟩ | ⟨_, _, hstate, _⟩
  · rw [hrun]
    exact h c
  · rw [hrun]
    exact h c
  · rw [hstate, closeQueuePost_ticketMetadata, closeQueuePost_cachedMessages]
    exact h c
  · rw [hstate]
    simp only []
    by_cases hc : channel.id = c
    · subst hc
      rw [JsMap.get_delete_self, JsMap.get_delete_self]
      rfl
    · rw [JsMap.get_delete_ne _ _ _ hc, JsMap.get_delete_ne _ _ _ hc]
      exact h c

theorem run_coherent (host : Host) (cfg : Config) (evs : List Event) :
    ∀ s : State, Coherent s → Coherent (run host cfg s evs).state := by
  induction evs with
  | nil =>
    intro s h
    exact h
  | cons e es ih =>
    intro s h
    refine ih (step host cfg s e).state ?_
    cases e with
    | channelCreate w channel => exact onChannelCreate_coherent cfg w s channel h
    | messageCreate m => exact onMessageCreate_coherent cfg s m h
    | interactionCreate w i => exact onInteractionCreate_coherent cfg w s i h
    | channelDelete w channel => exact onChannelDelete_coherent host cfg w s channel h

/-- C16, store coherence.  After every sequence of handler runs from the empty stores, with
any answers of the platform, `ticketMetadata` and `cachedMessages` hold the same channel ids
(every stored metadata is a record with a `claimedBy` list, by its type).  Hence whenever the
`ChannelDelete` handler gets past its empty-cache exit, the metadata it reads is defined:
`generateHTMLTranscript` returns the document instead of raising, and the run of the handler
holds that document. -/
theorem store_coherence (host : Host) (cfg : Config) (evs : List Event) :
    Coherent (run host cfg State.empty evs).state ∧
    (∀ (w : World) (channel : Channel) (messages : List Message),
      isTicketChannel cfg (some channel) = true →
      JsMap.get (run host cfg State.empty evs).state.cachedMessages channel.id
        = some messages →
      messages ≠ [] →
      ∃ md : Metadata,
        JsMap.get (run host cfg State.empty evs).state.ticketMetadata channel.id = some md ∧
        generateHTMLTranscript host cfg w.now channel messages
            (JsMap.get (run host cfg State.empty evs).state.ticketMetadata channel.id)
          = some (transcriptDocument host cfg w channel messages md) ∧
        (channelDeleteRun host cfg w (run host cfg State.empty evs).state channel).htmlContent
          = some (transcriptDocument host cfg w channel messages md)) := by
  have hco : Coherent (run host cfg State.empty evs).state :=
    run_coherent host cfg evs State.empty (fun _ => rfl)
  refine ⟨hco, ?_⟩
  intro w channel messages ht hc hne
  have hsome := hco channel.id
  rw [hc] at hsome
  cases hm : JsMap.get (run host cfg State.empty evs).state.ticketMetadata channel.id with
  | none =>
    rw [hm] at hsome
    cases hsome
  | some md =>
    refine ⟨md, rfl, rfl, ?_⟩
    cases hf : w.fetchChannel cfg.TRANSCRIPT_CHANNEL_ID with
    | none =>
      rw [channelDeleteRun_noArchiveChannel host cfg w _ channel messages md ht hc hne hm hf]
    | some transcriptChannel =>
      by_cases hvalid : summaryEmbedValid (archiveSummary cfg w channel messages md) = true
      · rw [channelDeleteRun_open host cfg w _ channel transcriptChannel messages md ht hc hne
          hm hf hvalid]
        split <;> rfl
      · rw [channelDeleteRun_invalidSummary host cfg w _ channel transcriptChannel messages md
          ht hc hne hm hf (by simpa using hvalid)]

/-- Worked example of C16: after ticket `100` was created, received a message and was
claimed, the deletion of the channel generates the document. -/
theorem store_coherence_witness :
    (channelDeleteRun sampleHost sampleConfig sampleWorld
      (run sampleHost sampleConfig State.empty
        [Event.channelCreate sampleWorld sampleTicket,
         Event.messageCreate (sampleMessage "1" sampleTicket "hi"),
         Event.interactionCreate sampleWorld
           (sampleClick "claim:100" (sampleMember "601" ["31"]))]).state
      sampleTicket).htmlContent
      = some (transcriptDocument sampleHost sampleConfig sampleWorld sampleTicket
          [sampleMessage "1" sampleTicket "hi"] ⟨7, some "user501", ["user601"]⟩) := by
  obtain ⟨md, h1, _, h3⟩ := (store_coherence sampleHost sampleConfig
    [Event.channelCreate sampleWorld sampleTicket,
     Event.messageCreate (sampleMessage "1" sampleTicket "hi"),
     Event.interactionCreate sampleWorld
       (sampleClick "claim:100" (sampleMember "601" ["31"]))]).2 sampleWorld sampleTicket
    [sampleMessage "1" sampleTicket "hi"] (by decide) (by decide) (by decide)
  have h4 : md = ⟨7, some "user501", ["user601"]⟩ :=
    Option.some.inj (h1.symm.trans (by decide))
  rw [h3, h4]

/-! ## C17: unambiguous dispatch -/

theorem startsWith_reqhelp_only (id : String) (h : startsWith id "reqhelp:" = true) :
    startsWith id "reqform:" = false ∧ startsWith id "claim:" = false ∧
      startsWith id "qclose:" = false ∧ startsWith id "qclose_claimed:" = false := by
  unfold startsWith at *
  rw [List.isPrefixOf_iff_prefix] at h
  obtain ⟨t, ht⟩ := h
  rw [← ht, data_claim, data_reqhelp, data_reqform, data_qclose, data_qclose_claimed]
  simp [List.isPrefixOf]

theorem startsWith_reqform_only (id : String) (h : startsWith id "reqform:" = true) :
    startsWith id "reqhelp:" = false ∧ startsWith id "claim:" = false ∧
      startsWith id "qclose:" = false ∧ startsWith id "qclose_claimed:" = false := by
  unfold startsWith at *
  rw [List.isPrefixOf_iff_prefix] at h
  obtain ⟨t, ht⟩ := h
  rw [← ht, data_claim, data_reqhelp, data_reqform, data_qclose, data_qclose_claimed]
  simp [List.isPrefixOf]

theorem startsWith_append_self (pre id : String) : startsWith (pre ++ id) pre = true := by
  unfold startsWith
  rw [List.isPrefixOf_iff_prefix, String.data_append]
  exact List.prefix_append _ _

theorem prefixTests_count (id : String) : (prefixTests id).count true ≤ 1 := by
  unfold prefixTests
  by_cases h1 : startsWith id "reqhelp:" = true
  · obtain ⟨a, b, c, d⟩ := startsWith_reqhelp_only id h1
    simp [h1, a, b, c, d]
  · by_cases h2 : startsWith id "reqform:" = true
    · obtain ⟨a, b, c, d⟩ := startsWith_reqform_only id h2
      simp [h2, a, b, c, d]
    · by_cases h3 : startsWith id "claim:" = true
      · obtain ⟨a, b, c⟩ := startsWith_claim_only id h3
        simp [h2, h3, a, b, c]
      · by_cases h4 : startsWith id "qclose:" = true
        · obtain ⟨a, b, c⟩ := startsWith_qclose_only id h4
          simp [h2, h4, a, b, c]
        · simp only [Bool.not_eq_true] at h1 h2 h3 h4
          rw [h1, h2, h3, h4]
          cases startsWith id "qclose_claimed:" <;> simp

/-- C17, unambiguous dispatch.  For every control identifier at most one of the five prefix
tests of the handler succeeds, hence at most one of the five blocks is entered for any
interaction; an identifier `qclose_claimed:<id>` fails the test of the close-without-claim
block and an identifier `claim:<id>` fails the tests of both close blocks; the identifiers
`claimed_disabled`, `claim_disabled` and `close_disabled` fail all five tests, so an
interaction that carries one of them leaves the stores unchanged and issues no call. -/
theorem dispatch_unambiguous (cfg : Config) (w : World) (s : State) :
    (∀ id : String, (prefixTests id).count true ≤ 1) ∧
    (∀ i : Interaction, (branchGuards i).count true ≤ 1) ∧
    (∀ id : String, startsWith ("qclose_claimed:" ++ id) "qclose_claimed:" = true ∧
      startsWith ("qclose_claimed:" ++ id) "qclose:" = false) ∧
    (∀ id : String, startsWith ("claim:" ++ id) "claim:" = true ∧
      startsWith ("claim:" ++ id) "qclose:" = false ∧
      startsWith ("claim:" ++ id) "qclose_claimed:" = false) ∧
    (∀ i : Interaction,
      i.customId = "claimed_disabled" ∨ i.customId = "claim_disabled" ∨
        i.customId = "close_disabled" →
      (prefixTests i.customId).count true = 0 ∧ onInteractionCreate cfg w s i = ⟨s, []⟩) := by
  refine ⟨prefixTests_count, ?_, ?_, ?_, ?_⟩
  · intro i
    have h := prefixTests_count i.customId
    unfold prefixTests at h
    unfold branchGuards
    cases hk : i.kind <;>
      cases h1 : startsWith i.customId "reqhelp:" <;>
      cases h2 : startsWith i.customId "reqform:" <;>
      cases h3 : startsWith i.customId "claim:" <;>
      cases h4 : startsWith i.customId "qclose:" <;>
      cases h5 : startsWith i.customId "qclose_claimed:" <;>
      simp [h1, h2, h3, h4, h5] at h ⊢
  · intro id
    have h := startsWith_append_self "qclose_claimed:" id
    exact ⟨h, (startsWith_qclose_claimed_only _ h).2.2⟩
  · intro id
    have h := startsWith_append_self "claim:" id
    exact ⟨h, (startsWith_claim_only _ h).2.1, (startsWith_claim_only _ h).2.2⟩
  · intro i hid
    refine ⟨?_, disabled_control_inert cfg w s i hid⟩
    rcases hid with h | h | h <;> rw [h] <;> decide

/-- Worked example of C17: a click that carries `close_disabled` changes nothing. -/
theorem dispatch_unambiguous_witness :
    onInteractionCreate sampleConfig sampleWorld pendingState
        (sampleClick "close_disabled" (sampleMember "601" ["31"]))
      = ⟨pendingState, []⟩ :=
  ((dispatch_unambiguous sampleConfig sampleWorld pendingState).2.2.2.2
    (sampleClick "close_disabled" (sampleMember "601" ["31"])) (Or.inr (Or.inr rfl))).2

/-! ## Code units -/

/-- The length of a string in JavaScript is the number of its UTF-16 code units. -/
theorem jsLength_eq_length_jsCodeUnits (text : String) :
    jsLength text = (jsCodeUnits text).length := by
  unfold jsLength jsCodeUnits
  induction text.data with
  | nil => rfl
  | cons c rest ih =>
    simp only [List.map_cons, List.sum_cons, List.flatMap_cons, List.length_append, ih]
    congr 1
    unfold utf16Units utf16CodeUnits
    split <;> rfl

end TicketHelper
